import Mathlib

/-!
KiCad router geometry kernel: circle shape, via and arc items, node, session logger; board
connected items and settings parameters.

A shallow embedding of `SHAPE_CIRCLE` (libs/kimath/include/geometry/shape_circle.h), of
`PNS::VIA` (pcbnew/router/pns_via.h), of `PNS::ARC` (pcbnew/router/pns_arc.cpp), of
`PNS::LOGGER` (pcbnew/router/pns_logger.cpp), of `BOARD_CONNECTED_ITEM`
(pcbnew/board_connected_item.cpp) and of `PARAM`, `PARAM_LAMBDA`
(include/settings/parameters.h).  `PNS::NODE` and the body of `VIA::PushoutForce` are not
among the source files and are modelled from the specification.

Conventions.
* `int` and `ecoord` values are integers (`Int`).  Signed overflow is undefined behaviour in
  C++, so the executions with defined behaviour are those on which machine arithmetic agrees
  with arithmetic in `Int`; the development is about those executions.
* `a / 2` on `int` is `Int.tdiv a 2` (truncation toward zero).
* `(int) sqrt( dist_sq )` converts the 64-bit integer to a double, takes the correctly
  rounded double square root and truncates it.  `cIntSqrt` computes that value with integer
  arithmetic; it is the floor of the real square root below 2^52 and can be one more above.
* An output parameter `int* aActual` is an `Option Int`: `none` is the null pointer, `some v` a
  pointer to a variable holding `v`.  A function with such a parameter returns the final
  contents next to its result.
* A pointer that may be null is an `Option`; a function that dereferences it returns `none`
  when the pointer is null.
* A `FILE*` is an `Option FILE`: `none` is the null pointer, `some f` a stream with the text
  written to it so far.  Passing the null stream to the C library is a fault (`Except`).
* A `const char*` is a `CHAR_PTR`: the text of the buffer together with the information
  whether the object owning the buffer still exists.  Temporaries are destroyed at the end of
  the full expression that creates them; reading through a pointer into a destroyed object
  is a fault (`Except`).
* Nodes are objects with identity that refer to each other, so they live in a `HEAP`; an
  operation on a node takes the heap and the address of the node and returns the new heap.
-/

/-! ## Points, segments, boxes -/

/-- Modelled from the spec: `VECTOR2I` (math/vector2d.h) is not among the source files.  A point
or vector with two integer coordinates and the componentwise arithmetic the sources use on
it (`a - b`, `a + b`, `a * k`). -/
structure VECTOR2I where
  x : Int
  y : Int
deriving DecidableEq

instance : Add VECTOR2I := ⟨fun a b => ⟨a.x + b.x, a.y + b.y⟩⟩

instance : Sub VECTOR2I := ⟨fun a b => ⟨a.x - b.x, a.y - b.y⟩⟩

instance : HMul VECTOR2I Int VECTOR2I := ⟨fun a k => ⟨a.x * k, a.y * k⟩⟩

/-- Modelled from the spec: `SEG` (geometry/seg.h) is not among the source files.  The probe
segment, given by its two end points. -/
structure SEG where
  A : VECTOR2I
  B : VECTOR2I
deriving DecidableEq

/-- Modelled from the spec: `SEG::SquaredDistance` (geometry/seg.h) is not among the source
files and is a parameter of `SHAPE_CIRCLE.Collide`.  For evaluations at concrete inputs the
parameter is instantiated at this function, the exact squared distance from a point probe
(a segment whose two end points coincide, read at `A`) to the point `aP`. -/
def SEG.pointSquaredDistance (aSeg : SEG) (aP : VECTOR2I) : Int :=
  (aSeg.A.x - aP.x) * (aSeg.A.x - aP.x) + (aSeg.A.y - aP.y) * (aSeg.A.y - aP.y)

/-- Modelled from the spec: `BOX2I` (math/box2.h) is not among the source files.  A bounding
box is an axis-aligned rectangular region, stored as an origin corner and a size. -/
structure BOX2I where
  m_Pos : VECTOR2I
  m_Size : VECTOR2I
deriving DecidableEq

/-- Modelled from the spec: `BOX2I::Normalize` (math/box2.h) is not among the source files.
The stored form of a box has a non-negative size: an axis along which the size is negative
is flipped, which keeps the rectangle spanned by the origin and the opposite corner. -/
def BOX2I.Normalize (b : BOX2I) : BOX2I :=
  let sy := if b.m_Size.y < 0 then -b.m_Size.y else b.m_Size.y
  let py := if b.m_Size.y < 0 then b.m_Pos.y - sy else b.m_Pos.y
  let sx := if b.m_Size.x < 0 then -b.m_Size.x else b.m_Size.x
  let px := if b.m_Size.x < 0 then b.m_Pos.x - sx else b.m_Pos.x
  { m_Pos := ⟨px, py⟩, m_Size := ⟨sx, sy⟩ }

/-- Modelled from the spec: the constructor `BOX2I( aPos, aSize )` (math/box2.h) is not among
the source files.  It builds the rectangle spanned by the corner `aPos` and the opposite
corner `aPos + aSize`, in stored (normalised) form. -/
def BOX2I.new (aPos aSize : VECTOR2I) : BOX2I :=
  BOX2I.Normalize { m_Pos := aPos, m_Size := aSize }

/-- Origin corner of a box. -/
def BOX2I.GetOrigin (b : BOX2I) : VECTOR2I := b.m_Pos

/-- Size of a box. -/
def BOX2I.GetSize (b : BOX2I) : VECTOR2I := b.m_Size

/-- Corner opposite to the origin. -/
def BOX2I.GetEnd (b : BOX2I) : VECTOR2I := b.m_Pos + b.m_Size

/-- Modelled from the spec: the region of a box, as a decidable membership test for a point:
`aPoint` lies between the origin and the end corner on both axes. -/
def BOX2I.Contains (b : BOX2I) (aPoint : VECTOR2I) : Prop :=
  b.GetOrigin.x ≤ aPoint.x ∧ aPoint.x ≤ b.GetEnd.x ∧
    b.GetOrigin.y ≤ aPoint.y ∧ aPoint.y ≤ b.GetEnd.y

instance (b : BOX2I) (p : VECTOR2I) : Decidable (b.Contains p) := by
  unfold BOX2I.Contains; infer_instance

/-- Containment of boxes as regions (the spec's `⊆`): every point of `a` is a point of `b`. -/
def BOX2I.Subset (a b : BOX2I) : Prop :=
  ∀ p : VECTOR2I, a.Contains p → b.Contains p

/-- Modelled from the spec: `BOX2I::Merge` (math/box2.h) is not among the source files.  The
minimal bounding region covering the union of two boxes: both boxes are taken in stored
(normalised) form, the origin becomes the componentwise minimum of the origins and the end
the componentwise maximum of the ends. -/
def BOX2I.Merge (b aRect : BOX2I) : BOX2I :=
  let b1 := b.Normalize
  let rect := aRect.Normalize
  let pos : VECTOR2I := ⟨min b1.m_Pos.x rect.m_Pos.x, min b1.m_Pos.y rect.m_Pos.y⟩
  let e : VECTOR2I := ⟨max b1.GetEnd.x rect.GetEnd.x, max b1.GetEnd.y rect.GetEnd.y⟩
  { m_Pos := pos, m_Size := e - pos }

/-! ## SHAPE_CIRCLE -/

/-- The class `SHAPE_CIRCLE`: private members `m_radius` and `m_center`. -/
structure SHAPE_CIRCLE where
  m_radius : Int
  m_center : VECTOR2I
deriving DecidableEq

/-- The constructor `SHAPE_CIRCLE( const VECTOR2I& aCenter, int aRadius )`. -/
def SHAPE_CIRCLE.new (aCenter : VECTOR2I) (aRadius : Int) : SHAPE_CIRCLE :=
  { m_radius := aRadius, m_center := aCenter }

/-- The constructor `SHAPE_CIRCLE()`: radius 0 and a default-constructed centre.  The default
constructor of `VECTOR2I` (math/vector2d.h) is not among the source files; the vector it
builds is the parameter `aDefaultVector`. -/
def SHAPE_CIRCLE.newDefault (aDefaultVector : VECTOR2I) : SHAPE_CIRCLE :=
  { m_radius := 0, m_center := aDefaultVector }

/-- The method `SHAPE_CIRCLE::SetRadius`. -/
def SHAPE_CIRCLE.SetRadius (self : SHAPE_CIRCLE) (aRadius : Int) : SHAPE_CIRCLE :=
  { self with m_radius := aRadius }

/-- The method `SHAPE_CIRCLE::SetCenter`. -/
def SHAPE_CIRCLE.SetCenter (self : SHAPE_CIRCLE) (aCenter : VECTOR2I) : SHAPE_CIRCLE :=
  { self with m_center := aCenter }

/-- The method `SHAPE_CIRCLE::GetRadius`. -/
def SHAPE_CIRCLE.GetRadius (self : SHAPE_CIRCLE) : Int := self.m_radius

/-- The method `SHAPE_CIRCLE::GetCenter`. -/
def SHAPE_CIRCLE.GetCenter (self : SHAPE_CIRCLE) : VECTOR2I := self.m_center

/-- The method `SHAPE_CIRCLE::BBox( int aClearance )`:
`rc = ( m_radius + aClearance, m_radius + aClearance )`, result `BOX2I( m_center - rc, rc * 2 )`. -/
def SHAPE_CIRCLE.BBox (self : SHAPE_CIRCLE) (aClearance : Int) : BOX2I :=
  let rc : VECTOR2I := ⟨self.m_radius + aClearance, self.m_radius + aClearance⟩
  BOX2I.new (self.m_center - rc) (rc * (2 : Int))

/-- The conversion `(double) n` of a non-negative 64-bit integer `n`: the nearest double
(53-bit significand, ties to even).  Such a double holds an integer, which is the result.
Below 2^53 the conversion is exact; above, `n` has `log2 n + 1` binary digits of which the
lowest `s = log2 n + 1 - 53` are rounded away. -/
def doubleOfInt (n : Nat) : Nat :=
  if n < 2 ^ 53 then n
  else
    let s := (Nat.log2 n + 1) - 53
    let q := n / 2 ^ s
    let r := n % 2 ^ s
    let half := 2 ^ (s - 1)
    if r > half ∨ (r = half ∧ q % 2 = 1) then (q + 1) * 2 ^ s else q * 2 ^ s

/-- The value `(int) sqrt( x )` for a double `x` that holds the non-negative integer `m`: the
correctly rounded double square root, truncated toward zero.  With `k` the integer square
root of `m`, the result is `k` when `m` is a square.  Otherwise the real root lies strictly
between `k` and `k + 1`; the doubles just below `k + 1` are `2 ^ (e - 52)` apart, where
`e = log2 k`, so the rounded root is `k + 1` exactly when the real root lies above the
midpoint `k + 1 - 2 ^ (e - 53)`, that is when `m * 4 ^ t > ((k + 1) * 2 ^ t - 1) ^ 2` for
`t = 53 - e`; in every other case the rounded root stays below `k + 1` and truncates to
`k`. -/
def intOfSqrtDouble (m : Nat) : Nat :=
  let k := Nat.sqrt m
  if k * k = m then k
  else
    let t := 53 - Nat.log2 k
    if m * 2 ^ (2 * t) > ((k + 1) * 2 ^ t - 1) ^ 2 then k + 1 else k

/-- The expression `(int) sqrt( dist_sq )` for an `ecoord` (64-bit integer) `dist_sq`: the
conversion to double, the double square root and the truncation to `int`.  A squared
distance is not negative; for a negative argument (where `sqrt` has no number to return and
the conversion is undefined) the value here is 0. -/
def cIntSqrt (dist_sq : Int) : Int :=
  (intOfSqrtDouble (doubleOfInt dist_sq.toNat) : Nat)

/-- The method `SHAPE_CIRCLE::Collide( const SEG& aSeg, int aClearance, int* aActual )`.
`SquaredDistance` stands for `SEG::SquaredDistance`, which is not among the source files.
The result is the returned flag together with the final contents of `aActual`. -/
def SHAPE_CIRCLE.Collide (SquaredDistance : SEG → VECTOR2I → Int) (self : SHAPE_CIRCLE)
    (aSeg : SEG) (aClearance : Int) (aActual : Option Int) : Bool × Option Int :=
  let minDist := aClearance + self.m_radius
  let dist_sq := SquaredDistance aSeg self.m_center
  if dist_sq = 0 ∨ dist_sq < minDist * minDist then
    (true, aActual.map (fun _ => max 0 (cIntSqrt dist_sq - self.m_radius)))
  else
    (false, aActual)

/-! ## PNS::ITEM and PNS::VIA -/

namespace PNS

/-- Modelled from the spec: `LAYER_RANGE` (pns_layerset.h) is not among the source files.  The
range of layers an item spans, from a start layer to an end layer. -/
structure LAYER_RANGE where
  m_start : Int
  m_end : Int
deriving DecidableEq

/-- Modelled from the spec: the enumeration `VIATYPE` (class_track.h) is not among the source
files.  The via-type is one of through, blind-buried, micro. -/
inductive VIATYPE where
  | THROUGH
  | BLIND_BURIED
  | MICROVIA
deriving DecidableEq

/-- Modelled from the spec: the enumeration `PnsKind` (pns_item.h) is not among the source
files.  The kind tag of an item: solid, via, segment, arc or line. -/
inductive PnsKind where
  | SOLID_T
  | LINE_T
  | SEGMENT_T
  | ARC_T
  | VIA_T
deriving DecidableEq

/-- Modelled from the spec: the base class `ITEM` (pns_item.h) is not among the source files.
An item carries a kind tag, the back-reference to the board-level object it represents
(here the provenance identifier of that parent, `none` for an item without one), its layers,
its net identifier, its marker flags and its rank. -/
structure ITEM where
  m_kind : PnsKind
  m_parent : Option String
  m_layers : LAYER_RANGE
  m_net : Int
  m_marker : Int
  m_rank : Int
deriving DecidableEq

/-- Modelled from the spec: `ITEM::SetNet` (pns_item.h) stores the net identifier. -/
def ITEM.SetNet (self : ITEM) (aNet : Int) : ITEM := { self with m_net := aNet }

/-- Modelled from the spec: `ITEM::SetLayers` (pns_item.h) stores the layer range. -/
def ITEM.SetLayers (self : ITEM) (aLayers : LAYER_RANGE) : ITEM := { self with m_layers := aLayers }

/-- The class `VIA : public ITEM` with its private members. -/
structure VIA extends ITEM where
  m_diameter : Int
  m_drill : Int
  m_pos : VECTOR2I
  m_shape : SHAPE_CIRCLE
  m_alternateShape : SHAPE_CIRCLE
  m_viaType : VIATYPE
deriving DecidableEq

/-- The constructor `VIA( aPos, aLayers, aDiameter, aDrill, aNet, aViaType )`.  `base` is the
base subobject built by `ITEM( VIA_T )`, whose constructor is not among the source files. -/
def VIA.new (base : ITEM) (aPos : VECTOR2I) (aLayers : LAYER_RANGE) (aDiameter aDrill aNet : Int)
    (aViaType : VIATYPE) : VIA :=
  { toITEM := (base.SetNet aNet).SetLayers aLayers
    m_pos := aPos
    m_diameter := aDiameter
    m_drill := aDrill
    m_shape := SHAPE_CIRCLE.new aPos (Int.tdiv aDiameter 2)
    m_alternateShape := SHAPE_CIRCLE.new aPos (Int.tdiv aDrill 2)
    m_viaType := aViaType }

/-- The constructor `VIA()`: `m_diameter = 2; // Dummy value`, `m_drill = 0`,
`m_viaType = VIATYPE::THROUGH`; position and both shapes are default-constructed.  `base` is
the base subobject built by `ITEM( VIA_T )` and `aDefaultVector` the default-constructed
`VECTOR2I`, neither of which is among the source files. -/
def VIA.newDefault (base : ITEM) (aDefaultVector : VECTOR2I) : VIA :=
  { toITEM := base
    m_diameter := 2
    m_drill := 0
    m_pos := aDefaultVector
    m_shape := SHAPE_CIRCLE.newDefault aDefaultVector
    m_alternateShape := SHAPE_CIRCLE.newDefault aDefaultVector
    m_viaType := VIATYPE.THROUGH }

/-- The copy constructor `VIA( const VIA& aB )`.  `base` is the base subobject built by
`ITEM( aB )`, whose copy constructor is not among the source files; the body then stores
net, layers, position, diameter, both shapes, marker, rank, drill and via type. -/
def VIA.copy (base : ITEM) (aB : VIA) : VIA :=
  { toITEM :=
      { (base.SetNet aB.m_net).SetLayers aB.m_layers with
        m_marker := aB.m_marker
        m_rank := aB.m_rank }
    m_pos := aB.m_pos
    m_diameter := aB.m_diameter
    m_shape := SHAPE_CIRCLE.new aB.m_pos (Int.tdiv aB.m_diameter 2)
    m_alternateShape := SHAPE_CIRCLE.new aB.m_pos (Int.tdiv aB.m_drill 2)
    m_drill := aB.m_drill
    m_viaType := aB.m_viaType }

/-- The method `VIA::Pos`. -/
def VIA.Pos (self : VIA) : VECTOR2I := self.m_pos

/-- The method `VIA::SetPos`: `m_pos = aPos; m_shape.SetCenter( aPos );`. -/
def VIA.SetPos (self : VIA) (aPos : VECTOR2I) : VIA :=
  { self with m_pos := aPos, m_shape := self.m_shape.SetCenter aPos }

/-- The method `VIA::ViaType`. -/
def VIA.ViaType (self : VIA) : VIATYPE := self.m_viaType

/-- The method `VIA::SetViaType`. -/
def VIA.SetViaType (self : VIA) (aViaType : VIATYPE) : VIA :=
  { self with m_viaType := aViaType }

/-- The method `VIA::Diameter`. -/
def VIA.Diameter (self : VIA) : Int := self.m_diameter

/-- The method `VIA::SetDiameter`: `m_diameter = aDiameter; m_shape.SetRadius( m_diameter / 2 );`. -/
def VIA.SetDiameter (self : VIA) (aDiameter : Int) : VIA :=
  { self with m_diameter := aDiameter, m_shape := self.m_shape.SetRadius (Int.tdiv aDiameter 2) }

/-- The method `VIA::Drill`. -/
def VIA.Drill (self : VIA) : Int := self.m_drill

/-- The method `VIA::SetDrill`: `m_drill = aDrill;`. -/
def VIA.SetDrill (self : VIA) (aDrill : Int) : VIA :=
  { self with m_drill := aDrill }

/-- The method `VIA::Shape`: the primary shape. -/
def VIA.Shape (self : VIA) : SHAPE_CIRCLE := self.m_shape

/-- The method `VIA::AlternateShape`: the drill-hole shape. -/
def VIA.AlternateShape (self : VIA) : SHAPE_CIRCLE := self.m_alternateShape

/-- One call on a via: a setter, or copy construction (with the base subobject the copy
constructor of `ITEM` builds). -/
inductive VIA.Op where
  | SetPos (aPos : VECTOR2I)
  | SetDiameter (aDiameter : Int)
  | SetDrill (aDrill : Int)
  | SetViaType (aViaType : VIATYPE)
  | Copy (base : ITEM)

/-- The via after one call. -/
def VIA.step (v : VIA) : VIA.Op → VIA
  | .SetPos aPos => v.SetPos aPos
  | .SetDiameter aDiameter => v.SetDiameter aDiameter
  | .SetDrill aDrill => v.SetDrill aDrill
  | .SetViaType aViaType => v.SetViaType aViaType
  | .Copy base => VIA.copy base v

/-- The via after a finite sequence of calls, in order. -/
def VIA.run (v : VIA) (ops : List VIA.Op) : VIA := ops.foldl VIA.step v

/-- The primary shape agrees with position and diameter. -/
def VIA.ShapeConsistent (v : VIA) : Prop :=
  v.Shape = SHAPE_CIRCLE.new v.Pos (Int.tdiv v.Diameter 2)

/-! ### PNS::ARC -/

/-- The class `ARC : public ITEM` (pns_arc.h is not among the source files): an item that
wraps the arc geometry `m_arc`.  `SHAPE_ARC`, the type of that geometry, is not among the
source files and is a type parameter. -/
structure ARC (SHAPE_ARC : Type) extends ITEM where
  m_arc : SHAPE_ARC

/-- The method `ARC::Shape`: the arc geometry. -/
def ARC.Shape {SHAPE_ARC : Type} (self : ARC SHAPE_ARC) : SHAPE_ARC := self.m_arc

/-- The method `ARC::Clone`: `new ARC( m_arc, m_net )`.  The constructor
`ARC( const SHAPE_ARC&, int )` (pns_arc.h) is not among the source files and is the
parameter `ctor`. -/
def ARC.Clone {SHAPE_ARC : Type} (ctor : SHAPE_ARC → Int → ARC SHAPE_ARC)
    (self : ARC SHAPE_ARC) : ARC SHAPE_ARC :=
  ctor self.m_arc self.m_net

/-- The method `ARC::ChangedArea( const ARC* aOther )`:
`tmp = Shape()->BBox(); tmp.Merge( aOther->Shape()->BBox() ); return tmp;`.
`BBox` stands for `SHAPE_ARC::BBox( int aClearance = 0 )`, which is not among the source
files.  The result type `OPT_BOX2I` is an optional box. -/
def ARC.ChangedArea {SHAPE_ARC : Type} (BBox : SHAPE_ARC → Int → BOX2I)
    (self aOther : ARC SHAPE_ARC) : Option BOX2I :=
  let tmp := BBox self.Shape 0
  let tmp := tmp.Merge (BBox aOther.Shape 0)
  some tmp

/-! ### PNS::LOGGER -/

/-- Modelled from the spec: `LOGGER::EVENT_ENTRY` (pns_logger.h) is not among the source
files.  One entry of the trace: the item reference (`none` is the null pointer; the item is
held as the value read through the pointer), the event type (an integer) and the
position. -/
structure EVENT_ENTRY where
  item : Option ITEM
  type : Int
  p : VECTOR2I
deriving DecidableEq

/-- The class `LOGGER`: the event sequence `m_events`, a vector of entries. -/
structure LOGGER where
  m_events : List EVENT_ENTRY
deriving DecidableEq

/-- The constructor `LOGGER::LOGGER()`: an empty event sequence. -/
def LOGGER.new : LOGGER := { m_events := [] }

/-- The method `LOGGER::Clear`: `m_events.clear();`. -/
def LOGGER.Clear (_self : LOGGER) : LOGGER := { m_events := [] }

/-- The method `LOGGER::Log( evt, pos, item )`: fills an entry and `push_back`s it. -/
def LOGGER.Log (self : LOGGER) (evt : Int) (pos : VECTOR2I) (item : Option ITEM) : LOGGER :=
  let ent : EVENT_ENTRY := { type := evt, p := pos, item := item }
  { m_events := self.m_events ++ [ent] }

/-- An output stream of the C library: the text written to it so far. -/
structure FILE where
  data : String
deriving DecidableEq

/-- A failure of the language or C library contract, which is undefined behaviour: a null
stream was passed to `fprintf` or `fclose`, or characters were read through a pointer into
an object that has already been destroyed. -/
inductive FAULT where
  | NULL_STREAM
  | DANGLING_POINTER
deriving DecidableEq

/-- A `const char*` value: `text` is what the pointed-to buffer held when the pointer was
taken, `alive` tells whether the object that owns the buffer still exists. -/
structure CHAR_PTR where
  text : String
  alive : Bool
deriving DecidableEq

/-- Reading the characters behind a `const char*`, as the conversion `%s` does: the text
while the owner of the buffer exists; a read after the owner was destroyed is a fault. -/
def CHAR_PTR.read (p : CHAR_PTR) : Except FAULT String :=
  if p.alive then .ok p.text else .error .DANGLING_POINTER

/-- The end of a full expression: the temporaries created in it are destroyed, so a pointer
into the buffer of one of them no longer points to a live object. -/
def CHAR_PTR.endOfFullExpression (p : CHAR_PTR) : CHAR_PTR := { p with alive := false }

/-- Modelled from the spec: `KIID` (kiid.h) is not among the source files.  The expression
`m_Uuid.AsString().c_str()`: `AsString()` returns the identifier as a string by value, a
temporary, and `c_str()` points into the buffer of that temporary. -/
def KIID.AsString_c_str (m_Uuid : String) : CHAR_PTR := { text := m_Uuid, alive := true }

/-- The C library call `fprintf( f, format, ..., idString )` where the last conversion of
the format is `%s`: `format` maps the characters read through `idString` to the formatted
text, which is appended to the stream.  A null stream is a fault, and so is reading through
a pointer that is no longer alive. -/
def fprintf (f : Option FILE) (format : String → String) (idString : CHAR_PTR) :
    Except FAULT (Option FILE) :=
  match f with
  | none => .error .NULL_STREAM
  | some file =>
    match idString.read with
    | .error e => .error e
    | .ok s => .ok (some { data := file.data ++ format s })

/-- The C library call `fclose( f )`: yields the finished stream; a null stream is a fault. -/
def fclose (f : Option FILE) : Except FAULT FILE :=
  match f with
  | none => .error .NULL_STREAM
  | some file => .ok file

/-- The text `fprintf` produces for `"event %d %d %d %s\n"` with the arguments `evt.type`,
`evt.p.x`, `evt.p.y` and the characters `idString` read for `%s`. -/
def LOGGER.formatEvent (evt : EVENT_ENTRY) (idString : String) : String :=
  "event " ++ toString evt.type ++ " " ++ toString evt.p.x ++ " " ++ toString evt.p.y ++ " " ++
    idString ++ "\n"

/-- The body of the loop of `LOGGER::Save` for one entry.  When `evt.item` is non-null and
has a parent, the statement
`const char* idString = evt.item->Parent()->m_Uuid.AsString().c_str();`
stores a pointer into the temporary string, which is destroyed when the statement ends; the
next statement `fprintf( f, "event %d %d %d %s\n", evt.type, evt.p.x, evt.p.y, idString );`
reads through that pointer. -/
def LOGGER.saveEvent (f : Option FILE) (evt : EVENT_ENTRY) : Except FAULT (Option FILE) :=
  match evt.item with
  | some item =>
    match item.m_parent with
    | some m_Uuid =>
      let idString := (KIID.AsString_c_str m_Uuid).endOfFullExpression
      fprintf f (LOGGER.formatEvent evt) idString
    | none => .ok f
  | none => .ok f

/-- The loop `for( const auto evt : m_events )` of `LOGGER::Save`. -/
def LOGGER.saveLoop (f : Option FILE) : List EVENT_ENTRY → Except FAULT (Option FILE)
  | [] => .ok f
  | evt :: rest =>
    match LOGGER.saveEvent f evt with
    | .error e => .error e
    | .ok f1 => LOGGER.saveLoop f1 rest

/-- The method `LOGGER::Save( aFilename )`.  `f` is the result of
`fopen( aFilename.c_str(), "wb" )`: `none` when the path cannot be opened, otherwise the
fresh stream.  The result is the logger after the call together with either the finished
stream or the fault the call runs into. -/
def LOGGER.Save (self : LOGGER) (f : Option FILE) : LOGGER × Except FAULT FILE :=
  (self,
    match LOGGER.saveLoop f self.m_events with
    | .error e => .error e
    | .ok f1 => fclose f1)

/-- The stream `fopen( path, "wb" )` returns for a path that can be opened: nothing written
yet. -/
def FILE.fresh : FILE := { data := "" }

/-- An entry is written by `Save` when its item is non-null and has a parent. -/
def EVENT_ENTRY.hasProvenance (evt : EVENT_ENTRY) : Bool :=
  match evt.item with
  | some item => item.m_parent.isSome
  | none => false

/-- One `Log` call: event type, position and item reference. -/
structure LOGGER.Call where
  evt : Int
  pos : VECTOR2I
  item : Option ITEM

/-- The logger after a sequence of `Log` calls, in call order. -/
def LOGGER.logAll (self : LOGGER) (calls : List LOGGER.Call) : LOGGER :=
  calls.foldl (fun l c => l.Log c.evt c.pos c.item) self

/-! ### PNS::NODE -/

/-- What `PushoutForce` leaves behind: the returned flag, the contents of the output
parameter `aForce`, and the trial positions at which collisions were evaluated, in order. -/
structure PushoutResult where
  result : Bool
  aForce : VECTOR2I
  trials : List VECTOR2I

/-- Modelled from the spec: the iterations of `VIA::PushoutForce` (pns_via.cpp is not among
the source files).  Each iteration evaluates the collision at the current trial position:
if it is clear, the resolver succeeds with the accumulated force; otherwise the via is
nudged by a step and the next iteration retries.  When the bound is exhausted the resolver
fails and leaves `aForce` as it was.  `collide` yields nothing at a collision-free position
and otherwise the step derived from the penetration depth along the direction. -/
def VIA.pushoutLoop (collide : VECTOR2I → Option VECTOR2I) (aForce : VECTOR2I) :
    Nat → VECTOR2I → VECTOR2I → List VECTOR2I → PushoutResult
  | 0, _, _, trials => { result := false, aForce := aForce, trials := trials }
  | n + 1, pos, totalForce, trials =>
    match collide pos with
    | none => { result := true, aForce := totalForce, trials := trials ++ [pos] }
    | some step =>
      VIA.pushoutLoop collide aForce n (pos + step) (totalForce + step) (trials ++ [pos])

/-- Modelled from the spec: `VIA::PushoutForce( aNode, aDirection, aForce, aSolidsOnly,
aMaxIterations )`, declared in pns_via.h with its body in pns_via.cpp, which is not among
the source files.  `collide aSolidsOnly aDirection pos` evaluates the via at the trial
position `pos` against the node (against solids only, or against every item): nothing when
the position is collision-free, otherwise the step along `aDirection` derived from the
penetration depth. -/
def VIA.PushoutForce (collide : Bool → VECTOR2I → VECTOR2I → Option VECTOR2I) (self : VIA)
    (aDirection aForce : VECTOR2I) (aSolidsOnly : Bool) (aMaxIterations : Int) :
    PushoutResult :=
  VIA.pushoutLoop (collide aSolidsOnly aDirection) aForce aMaxIterations.toNat self.Pos
    ⟨0, 0⟩ []

/-- The call `PushoutForce( aNode, aDirection, aForce )` with the defaulted arguments of the
declaration in pns_via.h: `aSolidsOnly = true`, `aMaxIterations = 10`. -/
def VIA.PushoutForceDefault (collide : Bool → VECTOR2I → VECTOR2I → Option VECTOR2I)
    (self : VIA) (aDirection aForce : VECTOR2I) : PushoutResult :=
  VIA.PushoutForce collide self aDirection aForce true 10

end PNS

/-! ## Settings parameters (include/settings/parameters.h) -/

/-- Modelled from the spec: `JSON_SETTINGS` (settings/json_settings.h) is not among the source
files.  The contents of a settings file as seen by a parameter of value type `ValueType`:
`Get` is `Get<ValueType>( path )` and `GetJson` is `GetJson( path )`, each yielding the
value stored at a path or nothing when the path is absent. -/
structure JSON_SETTINGS (ValueType : Type) where
  Get : String → Option ValueType
  GetJson : String → Option ValueType

/-- The class template `PARAM<ValueType>` with the members of `PARAM_BASE`.  The pointer
`m_ptr` is not a field: the value it points to is passed to and returned by the methods. -/
structure PARAM (ValueType : Type) where
  m_path : String
  m_readOnly : Bool
  m_default : ValueType
  m_min : ValueType
  m_max : ValueType
  m_use_minmax : Bool

/-- The constructor `PARAM( aJsonPath, aPtr, aDefault, aReadOnly )`: no range.  `m_min()` and
`m_max()` are value-initialised; that value is the parameter `aInit`. -/
def PARAM.new {ValueType : Type} (aJsonPath : String) (aDefault : ValueType)
    (aReadOnly : Bool) (aInit : ValueType) : PARAM ValueType :=
  { m_path := aJsonPath, m_readOnly := aReadOnly, m_default := aDefault, m_min := aInit,
    m_max := aInit, m_use_minmax := false }

/-- The constructor `PARAM( aJsonPath, aPtr, aDefault, aMin, aMax, aReadOnly )`: with a
range. -/
def PARAM.newRange {ValueType : Type} (aJsonPath : String) (aDefault aMin aMax : ValueType)
    (aReadOnly : Bool) : PARAM ValueType :=
  { m_path := aJsonPath, m_readOnly := aReadOnly, m_default := aDefault, m_min := aMin,
    m_max := aMax, m_use_minmax := true }

/-- The method `PARAM::Load`: the value of `*m_ptr` after the call, `aTarget` being its value
before. -/
def PARAM.Load {ValueType : Type} [LT ValueType] [DecidableRel (LT.lt : ValueType → ValueType → Prop)]
    (self : PARAM ValueType) (aSettings : JSON_SETTINGS ValueType) (aTarget : ValueType) :
    ValueType :=
  if self.m_readOnly then
    aTarget
  else
    let val := self.m_default
    let val :=
      match aSettings.Get self.m_path with
      | some optval =>
        if self.m_use_minmax then
          if self.m_max < optval ∨ optval < self.m_min then self.m_default else optval
        else
          optval
      | none => val
    val

/-- The method `PARAM::SetDefault`: `*m_ptr = m_default;`, the value of `*m_ptr` after the
call. -/
def PARAM.SetDefault {ValueType : Type} (self : PARAM ValueType) (_aTarget : ValueType) :
    ValueType :=
  self.m_default

/-- The method `PARAM::IsDefault`. -/
def PARAM.IsDefault {ValueType : Type} [DecidableEq ValueType] (self : PARAM ValueType)
    (aTarget : ValueType) : Bool :=
  decide (aTarget = self.m_default)

/-- The method `PARAM::MatchesFile`. -/
def PARAM.MatchesFile {ValueType : Type} [DecidableEq ValueType] (self : PARAM ValueType)
    (aSettings : JSON_SETTINGS ValueType) (aTarget : ValueType) : Bool :=
  match aSettings.Get self.m_path with
  | some optval => decide (optval = aTarget)
  | none => false

/-- The class template `PARAM_LAMBDA<ValueType>` with the members of `PARAM_BASE`.  The getter
and the setter act on the storage behind the parameter, of type `Storage`.  `m_isJson` is
the compile-time constant `std::is_same<ValueType, nlohmann::json>::value`. -/
structure PARAM_LAMBDA (ValueType Storage : Type) where
  m_path : String
  m_readOnly : Bool
  m_default : ValueType
  m_getter : Storage → ValueType
  m_setter : ValueType → Storage → Storage
  m_isJson : Bool

/-- The method `PARAM_LAMBDA::Load`: the storage after the call. -/
def PARAM_LAMBDA.Load {ValueType Storage : Type} (self : PARAM_LAMBDA ValueType Storage)
    (aSettings : JSON_SETTINGS ValueType) (aStorage : Storage) : Storage :=
  if self.m_readOnly then
    aStorage
  else
    let val := self.m_default
    let val :=
      if self.m_isJson then
        match aSettings.GetJson self.m_path with
        | some optval => optval
        | none => val
      else
        match aSettings.Get self.m_path with
        | some optval => optval
        | none => val
    self.m_setter val aStorage

/-- The method `PARAM_LAMBDA::SetDefault`: `m_setter( m_default );`. -/
def PARAM_LAMBDA.SetDefault {ValueType Storage : Type} (self : PARAM_LAMBDA ValueType Storage)
    (aStorage : Storage) : Storage :=
  self.m_setter self.m_default aStorage

/-- The method `PARAM_LAMBDA::IsDefault`: `m_getter() == m_default`. -/
def PARAM_LAMBDA.IsDefault {ValueType Storage : Type} [DecidableEq ValueType]
    (self : PARAM_LAMBDA ValueType Storage) (aStorage : Storage) : Bool :=
  decide (self.m_getter aStorage = self.m_default)

/-- The method `PARAM_LAMBDA::MatchesFile`: in both branches the value found at the path is
compared with `m_default`; without a value at the path the result is false. -/
def PARAM_LAMBDA.MatchesFile {ValueType Storage : Type} [DecidableEq ValueType]
    (self : PARAM_LAMBDA ValueType Storage) (aSettings : JSON_SETTINGS ValueType)
    (_aStorage : Storage) : Bool :=
  if self.m_isJson then
    match aSettings.GetJson self.m_path with
    | some optval => decide (optval = self.m_default)
    | none => false
  else
    match aSettings.Get self.m_path with
    | some optval => decide (optval = self.m_default)
    | none => false

/-! ## BOARD_CONNECTED_ITEM (pcbnew/board_connected_item.cpp) -/

/-- Modelled from the spec: `NETCLASS` (netclass.h) is not among the source files.  A net
class, read through `GetName()` and `GetClearance()`. -/
structure NETCLASS where
  m_Name : String
  m_Clearance : Int
deriving DecidableEq

/-- Modelled from the spec: `NETINFO_ITEM` (netinfo.h) is not among the source files.  A net,
read through `GetNet()` (the net code) and `GetNetClass()` (a net class or the null
pointer). -/
structure NETINFO_ITEM where
  m_NetCode : Int
  m_NetClass : Option NETCLASS
deriving DecidableEq

/-- Modelled from the spec: the enumeration `PCB_LAYER_ID` is not among the source files.  Two
copper layers, the board edge layer `Edge_Cuts` and one more non-copper layer. -/
inductive PCB_LAYER_ID where
  | F_Cu
  | B_Cu
  | Edge_Cuts
  | F_SilkS
deriving DecidableEq

/-- Modelled from the spec: `BOARD_DESIGN_SETTINGS` is not among the source files.  The design
settings read by `GetClearance`: the default net class (`GetDefault()`, a net class or the
null pointer) and `m_CopperEdgeClearance`. -/
structure BOARD_DESIGN_SETTINGS where
  m_Default : Option NETCLASS
  m_CopperEdgeClearance : Int

/-- Modelled from the spec: `BOARD` (class_board.h) is not among the source files.  The board
data model as consumed here: `FindNet( aNetCode )` (a net or the null pointer) and
`GetDesignSettings()`. -/
structure BOARD where
  FindNet : Int → Option NETINFO_ITEM
  m_designSettings : BOARD_DESIGN_SETTINGS

/-- The class `BOARD_CONNECTED_ITEM` as far as the two methods read it: the parent board
(`GetBoard()`, `none` without a parent board), the layer (`GetLayer()`), the result of the
virtual `IsOnCopperLayer()`, and the member `m_netinfo` (a pointer, `none` when null). -/
structure BOARD_CONNECTED_ITEM where
  m_board : Option BOARD
  m_Layer : PCB_LAYER_ID
  m_onCopperLayer : Bool
  m_netinfo : Option NETINFO_ITEM

/-- Modelled from the spec: a `BOARD_ITEM*` argument: either a connected item
(`IsConnected()` is true and the item is a `BOARD_CONNECTED_ITEM`) or another board item,
of which only the layer is read. -/
inductive BOARD_ITEM where
  | connected (item : BOARD_CONNECTED_ITEM)
  | other (aLayer : PCB_LAYER_ID)

/-- The method `BOARD_ITEM::IsConnected`. -/
def BOARD_ITEM.IsConnected : BOARD_ITEM → Bool
  | .connected _ => true
  | .other _ => false

/-- The method `BOARD_ITEM::GetLayer`. -/
def BOARD_ITEM.GetLayer : BOARD_ITEM → PCB_LAYER_ID
  | .connected item => item.m_Layer
  | .other aLayer => aLayer

/-- What `SetNetCode` leaves behind: the item, the returned flag, and whether
`wxASSERT( m_netinfo )` was reached with a null `m_netinfo`. -/
structure SetNetCodeResult where
  item : BOARD_CONNECTED_ITEM
  result : Bool
  assertFailed : Bool

/-- The method `BOARD_CONNECTED_ITEM::SetNetCode( int aNetCode, bool aNoAssert )`.
`OrphanedItem` stands for `NETINFO_LIST::OrphanedItem()`, the address of the dedicated
orphaned net, which is not among the source files. -/
def BOARD_CONNECTED_ITEM.SetNetCode (OrphanedItem : NETINFO_ITEM) (self : BOARD_CONNECTED_ITEM)
    (aNetCode : Int) (aNoAssert : Bool) : SetNetCodeResult :=
  let aNetCode := if !self.m_onCopperLayer then 0 else aNetCode
  let board := self.m_board
  let m_netinfo : Option NETINFO_ITEM :=
    match board with
    | some b => if aNetCode ≥ 0 then b.FindNet aNetCode else some OrphanedItem
    | none => some OrphanedItem
  { item := { self with m_netinfo := m_netinfo }
    result := m_netinfo.isSome
    assertFailed := !aNoAssert && m_netinfo.isNone }

/-- The method `BOARD_CONNECTED_ITEM::GetNetClass`: the net class of `m_netinfo`, or the
default net class of the board.  The outer `none` is the dereference of a null pointer. -/
def BOARD_CONNECTED_ITEM.GetNetClass (self : BOARD_CONNECTED_ITEM) : Option (Option NETCLASS) :=
  match self.m_netinfo with
  | none => none
  | some netinfo =>
    match netinfo.m_NetClass with
    | some netclass => some (some netclass)
    | none =>
      match self.m_board with
      | none => none
      | some b => some b.m_designSettings.m_Default

/-- The text `wxString::Format( _( "'%s' netclass clearance" ), aName )`. -/
def netclassClearanceSource (aName : String) : String :=
  "'" ++ aName ++ "' netclass clearance"

/-- The method `BOARD_CONNECTED_ITEM::GetClearance( BOARD_ITEM* aItem, wxString* aSource )`:
the returned clearance and the final contents of `aSource`.  `GetRuleClearance` stands for
`BOARD_DESIGN_SETTINGS::GetRuleClearance`, which is not among the source files.  The result
`none` is the dereference of a null pointer. -/
def BOARD_CONNECTED_ITEM.GetClearance
    (GetRuleClearance : BOARD_CONNECTED_ITEM → Option NETCLASS → Option BOARD_ITEM →
      Option NETCLASS → Option String → Int × Option String)
    (self : BOARD_CONNECTED_ITEM) (aItem : Option BOARD_ITEM) (aSource : Option String) :
    Option (Int × Option String) :=
  match self.m_board with
  | none => some (0, aSource)
  | some board => do
    let bds := board.m_designSettings
    let netinfo ← self.m_netinfo
    let myNetclass ← if netinfo.m_NetCode = 0 then some bds.m_Default else self.GetNetClass
    let itemNetclass ←
      match aItem with
      | some (.connected item) => do
        let itemNet ← item.m_netinfo
        if itemNet.m_NetCode = 0 then some bds.m_Default else item.GetNetClass
      | _ => some none
    let (clearance, aSource) := GetRuleClearance self myNetclass aItem itemNetclass aSource
    let (clearance, aSource) :=
      match myNetclass with
      | some my =>
        let myClearance := my.m_Clearance
        if myClearance > clearance then
          (myClearance, aSource.map (fun _ => netclassClearanceSource my.m_Name))
        else (clearance, aSource)
      | none => (clearance, aSource)
    let (clearance, aSource) ←
      match itemNetclass with
      | some other =>
        match myNetclass with
        | none => none
        | some my =>
          let itemClearance := my.m_Clearance
          if itemClearance > clearance then
            some (itemClearance, aSource.map (fun _ => netclassClearanceSource other.m_Name))
          else some (clearance, aSource)
      | none => some (clearance, aSource)
    let (clearance, aSource) :=
      match aItem with
      | some item =>
        if item.GetLayer = PCB_LAYER_ID.Edge_Cuts then
          let edgeClearance := bds.m_CopperEdgeClearance
          if edgeClearance > clearance then
            (edgeClearance, aSource.map (fun _ => "board edge clearance"))
          else (clearance, aSource)
        else (clearance, aSource)
      | none => (clearance, aSource)
    return (clearance, aSource)

/-! ## Integer and real distances -/

/-- The integer square root is the floor of the real square root. -/
theorem Int_sqrt_eq_floor_sqrt (n : Int) : Int.sqrt n = ⌊Real.sqrt (n : ℝ)⌋ := by
  rcases le_or_lt 0 n with h | h
  · obtain ⟨k, rfl⟩ := Int.eq_ofNat_of_zero_le h
    have hk : Real.sqrt (((k : ℕ) : ℤ) : ℝ) = Real.sqrt (k : ℝ) := by norm_cast
    rw [hk, Real.floor_real_sqrt_eq_nat_sqrt]
    simp [Int.sqrt]
  · have h0 : Real.sqrt (n : ℝ) = 0 :=
      Real.sqrt_eq_zero_of_nonpos (by exact_mod_cast h.le)
    have h1 : n.toNat = 0 := Int.toNat_of_nonpos h.le
    simp [Int.sqrt, h0, h1]

/-- A real square root of an integer lies below an integer bound exactly when the bound is
positive and its square exceeds the integer. -/
theorem real_sqrt_lt_int_iff (D m : Int) :
    Real.sqrt (D : ℝ) < (m : ℝ) ↔ 0 < m ∧ D < m * m := by
  constructor
  · intro h
    have hm : (0 : ℝ) < (m : ℝ) := lt_of_le_of_lt (Real.sqrt_nonneg _) h
    refine ⟨by exact_mod_cast hm, ?_⟩
    have h2 := (Real.sqrt_lt' hm).1 h
    have h3 : ((D : ℤ) : ℝ) < ((m * m : ℤ) : ℝ) := by push_cast; nlinarith
    exact_mod_cast h3
  · rintro ⟨hm, h⟩
    have hm' : (0 : ℝ) < (m : ℝ) := by exact_mod_cast hm
    rw [Real.sqrt_lt' hm']
    have h3 : ((D : ℤ) : ℝ) < ((m * m : ℤ) : ℝ) := by exact_mod_cast h
    push_cast at h3
    nlinarith

/-- A non-negative integer lies below the real square root of an integer exactly when its
square lies below that integer. -/
theorem int_lt_real_sqrt_iff (D m : Int) (hm : 0 ≤ m) :
    (m : ℝ) < Real.sqrt (D : ℝ) ↔ m * m < D := by
  have hm' : (0 : ℝ) ≤ (m : ℝ) := by exact_mod_cast hm
  rw [Real.lt_sqrt hm']
  constructor
  · intro h
    have h3 : ((m * m : ℤ) : ℝ) < ((D : ℤ) : ℝ) := by push_cast; nlinarith
    exact_mod_cast h3
  · intro h
    have h3 : ((m * m : ℤ) : ℝ) < ((D : ℤ) : ℝ) := by exact_mod_cast h
    push_cast at h3
    nlinarith

/-- The flag returned by `Collide`, as a condition on the squared distance. -/
theorem SHAPE_CIRCLE.Collide_fst_iff (sd : SEG → VECTOR2I → Int) (self : SHAPE_CIRCLE)
    (aSeg : SEG) (aClearance : Int) (aActual : Option Int) :
    (self.Collide sd aSeg aClearance aActual).1 = true ↔
      (sd aSeg self.m_center = 0 ∨
        sd aSeg self.m_center <
          (aClearance + self.m_radius) * (aClearance + self.m_radius)) := by
  unfold SHAPE_CIRCLE.Collide
  simp only []
  split <;> simp_all

/-! ## Claims on `SHAPE_CIRCLE::Collide` -/

/-- C1: if the distance from the probe segment to the centre of the circle is strictly less
than clearance plus radius, `Collide` returns true. -/
theorem SHAPE_CIRCLE.Collide_true_of_distance_lt (sd : SEG → VECTOR2I → Int)
    (self : SHAPE_CIRCLE) (aSeg : SEG) (aClearance : Int) (aActual : Option Int)
    (h : Real.sqrt ((sd aSeg self.m_center : Int) : ℝ) <
      ((aClearance + self.m_radius : Int) : ℝ)) :
    (self.Collide sd aSeg aClearance aActual).1 = true := by
  rw [SHAPE_CIRCLE.Collide_fst_iff]
  exact Or.inr ((real_sqrt_lt_int_iff _ _).1 h).2

/-- Witness of C1: radius 300 at the origin, point probe at (400, 0), clearance 200. -/
theorem SHAPE_CIRCLE.Collide_true_of_distance_lt_witness :
    (SHAPE_CIRCLE.Collide SEG.pointSquaredDistance ⟨300, ⟨0, 0⟩⟩ ⟨⟨400, 0⟩, ⟨400, 0⟩⟩ 200
      none).1 = true :=
  SHAPE_CIRCLE.Collide_true_of_distance_lt SEG.pointSquaredDistance ⟨300, ⟨0, 0⟩⟩
    ⟨⟨400, 0⟩, ⟨400, 0⟩⟩ 200 none
    ((real_sqrt_lt_int_iff _ _).2 (by decide))

/-- C2: for radius and clearance both non-negative, if the gap between probe and circle
(distance to the centre minus radius) exceeds the clearance, `Collide` returns false. -/
theorem SHAPE_CIRCLE.Collide_false_of_gap_gt (sd : SEG → VECTOR2I → Int)
    (self : SHAPE_CIRCLE) (aSeg : SEG) (aClearance : Int) (aActual : Option Int)
    (hr : 0 ≤ self.m_radius) (hc : 0 ≤ aClearance)
    (h : (aClearance : ℝ) <
      Real.sqrt ((sd aSeg self.m_center : Int) : ℝ) - (self.m_radius : ℝ)) :
    (self.Collide sd aSeg aClearance aActual).1 = false := by
  have h1 : ((aClearance + self.m_radius : Int) : ℝ) <
      Real.sqrt ((sd aSeg self.m_center : Int) : ℝ) := by push_cast; linarith
  have h2 := (int_lt_real_sqrt_iff _ _ (by omega)).1 h1
  have h3 : 0 ≤ (aClearance + self.m_radius) * (aClearance + self.m_radius) :=
    mul_self_nonneg _
  rw [← Bool.not_eq_true, SHAPE_CIRCLE.Collide_fst_iff]
  rintro (h0 | h0) <;> omega

/-- Witness of C2: radius 300 at the origin, point probe at (400, 0), clearance 50. -/
theorem SHAPE_CIRCLE.Collide_false_of_gap_gt_witness :
    (SHAPE_CIRCLE.Collide SEG.pointSquaredDistance ⟨300, ⟨0, 0⟩⟩ ⟨⟨400, 0⟩, ⟨400, 0⟩⟩ 50
      (some 7)).1 = false :=
  SHAPE_CIRCLE.Collide_false_of_gap_gt SEG.pointSquaredDistance ⟨300, ⟨0, 0⟩⟩
    ⟨⟨400, 0⟩, ⟨400, 0⟩⟩ 50 (some 7) (by decide) (by decide)
    (by
      have h := (int_lt_real_sqrt_iff
        (SEG.pointSquaredDistance ⟨⟨400, 0⟩, ⟨400, 0⟩⟩ ⟨0, 0⟩) 350 (by decide)).2 (by decide)
      have e : ((300 : ℤ) : ℝ) = 300 := by norm_num
      have e2 : ((350 : ℤ) : ℝ) = 350 := by norm_num
      have e3 : ((50 : ℤ) : ℝ) = 50 := by norm_num
      simp only [e2] at h
      simp only [e, e3]
      linarith)

/-- C3: a probe whose squared distance to the centre is 0 collides, whatever the radius and
the clearance. -/
theorem SHAPE_CIRCLE.Collide_true_of_distance_zero (sd : SEG → VECTOR2I → Int)
    (self : SHAPE_CIRCLE) (aSeg : SEG) (aClearance : Int) (aActual : Option Int)
    (h : sd aSeg self.m_center = 0) :
    (self.Collide sd aSeg aClearance aActual).1 = true := by
  rw [SHAPE_CIRCLE.Collide_fst_iff]
  exact Or.inl h

/-- Witness of C3: the via of diameter 600 and drill 250 at the origin, point probe at the
origin, clearance -1000. -/
theorem SHAPE_CIRCLE.Collide_true_of_distance_zero_witness :
    ((PNS.VIA.new ⟨.VIA_T, none, ⟨0, 0⟩, -1, 0, -1⟩ ⟨0, 0⟩ ⟨0, 15⟩ 600 250 1
      .THROUGH).Shape.Collide SEG.pointSquaredDistance ⟨⟨0, 0⟩, ⟨0, 0⟩⟩ (-1000) none).1 = true :=
  SHAPE_CIRCLE.Collide_true_of_distance_zero SEG.pointSquaredDistance _
    ⟨⟨0, 0⟩, ⟨0, 0⟩⟩ (-1000) none (by decide)

/-- The absolute value of an integer lies at or below the real square root of a non-negative
integer exactly when its square lies at or below that integer. -/
theorem int_abs_le_real_sqrt_iff (D m : Int) (hD : 0 ≤ D) :
    |(m : ℝ)| ≤ Real.sqrt (D : ℝ) ↔ m * m ≤ D := by
  have hD' : (0 : ℝ) ≤ (D : ℝ) := by exact_mod_cast hD
  constructor
  · intro h
    have h2 := (Real.le_sqrt (abs_nonneg _) hD').1 h
    rw [sq_abs] at h2
    have h3 : ((m * m : ℤ) : ℝ) ≤ ((D : ℤ) : ℝ) := by push_cast; nlinarith
    exact_mod_cast h3
  · intro h
    apply Real.abs_le_sqrt
    have h3 : ((m * m : ℤ) : ℝ) ≤ ((D : ℤ) : ℝ) := by exact_mod_cast h
    push_cast at h3
    nlinarith

/-- Counterexample to C4: for the via of diameter 600 and drill 250 at the origin, the point
probe at (400, 0) lies outside the footprint (distance 400 > 300) and the clearance 300 is
within the bound, yet `Collide` on the primary shape returns true. -/
theorem PNS.VIA.Collide_outside_footprint_counterexample :
    (300 : ℝ) < Real.sqrt
        ((SEG.pointSquaredDistance ⟨⟨400, 0⟩, ⟨400, 0⟩⟩ ⟨0, 0⟩ : Int) : ℝ) ∧
      (300 : Int) ≤ 300 ∧
      ((PNS.VIA.new ⟨.VIA_T, none, ⟨0, 0⟩, -1, 0, -1⟩ ⟨0, 0⟩ ⟨0, 15⟩ 600 250 1
        .THROUGH).Shape.Collide SEG.pointSquaredDistance ⟨⟨400, 0⟩, ⟨400, 0⟩⟩ 300
          none).1 = true := by
  refine ⟨?_, by decide, by decide⟩
  have h := (int_lt_real_sqrt_iff
    (SEG.pointSquaredDistance ⟨⟨400, 0⟩, ⟨400, 0⟩⟩ ⟨0, 0⟩) 300 (by decide)).2 (by decide)
  simpa using h

/-- C4 (amended): for the via of diameter 600 and drill 250 at the origin, a probe outside the
footprint (distance from the origin above 300) and any clearance `c` (so also every
`c ≤ 300`), `Collide` on the primary shape returns false exactly when the distance is at
least `|300 + c|`, that is when the probe is also outside the footprint grown by the
clearance. -/
theorem PNS.VIA.Collide_false_iff_outside_clearance (sd : SEG → VECTOR2I → Int)
    (base : PNS.ITEM) (aLayers : PNS.LAYER_RANGE) (aNet : Int) (aViaType : PNS.VIATYPE)
    (aSeg : SEG) (aClearance : Int) (aActual : Option Int)
    (hout : (300 : ℝ) < Real.sqrt ((sd aSeg ⟨0, 0⟩ : Int) : ℝ)) :
    ((PNS.VIA.new base ⟨0, 0⟩ aLayers 600 250 aNet aViaType).Shape.Collide sd aSeg aClearance
        aActual).1 = false ↔
      |((300 + aClearance : Int) : ℝ)| ≤ Real.sqrt ((sd aSeg ⟨0, 0⟩ : Int) : ℝ) := by
  have h300 : ((300 : ℤ) : ℝ) = 300 := by norm_num
  have h1 : (300 : ℤ) * 300 < sd aSeg ⟨0, 0⟩ :=
    (int_lt_real_sqrt_iff _ 300 (by decide)).1 (by rw [h300]; exact hout)
  rw [int_abs_le_real_sqrt_iff _ _ (by omega), ← Bool.not_eq_true,
    SHAPE_CIRCLE.Collide_fst_iff]
  have hs : (PNS.VIA.new base ⟨0, 0⟩ aLayers 600 250 aNet aViaType).Shape =
      ⟨300, ⟨0, 0⟩⟩ := by
    simp [PNS.VIA.new, PNS.VIA.Shape, SHAPE_CIRCLE.new]
    decide
  rw [hs]
  simp only []
  have e : (aClearance + 300) * (aClearance + 300) =
      (300 + aClearance) * (300 + aClearance) := by ring
  rw [e]
  constructor
  · intro h
    by_contra hlt
    exact h (Or.inr (by omega))
  · rintro h (h0 | h0) <;> omega

/-- Witness of the amended C4: point probe at (400, 0), clearance 100. -/
theorem PNS.VIA.Collide_false_iff_outside_clearance_witness :
    ((PNS.VIA.new ⟨.VIA_T, none, ⟨0, 0⟩, -1, 0, -1⟩ ⟨0, 0⟩ ⟨0, 15⟩ 600 250 1
      .THROUGH).Shape.Collide SEG.pointSquaredDistance ⟨⟨400, 0⟩, ⟨400, 0⟩⟩ 100
        none).1 = false :=
  (PNS.VIA.Collide_false_iff_outside_clearance SEG.pointSquaredDistance
    ⟨.VIA_T, none, ⟨0, 0⟩, -1, 0, -1⟩ ⟨0, 15⟩ 1 .THROUGH ⟨⟨400, 0⟩, ⟨400, 0⟩⟩ 100 none
    (by
      have h := (int_lt_real_sqrt_iff
        (SEG.pointSquaredDistance ⟨⟨400, 0⟩, ⟨400, 0⟩⟩ ⟨0, 0⟩) 300 (by decide)).2 (by decide)
      simpa using h)).2
    ((int_abs_le_real_sqrt_iff _ _ (by decide)).2 (by decide))

/-- Below 2^53 the conversion to double is exact. -/
theorem doubleOfInt_of_lt (n : Nat) (h : n < 2 ^ 53) : doubleOfInt n = n := by
  unfold doubleOfInt
  rw [if_pos h]

/-- The truncated double square root is the integer square root or, only for a non-square,
one more. -/
theorem intOfSqrtDouble_cases (m : Nat) :
    intOfSqrtDouble m = Nat.sqrt m ∨
      (intOfSqrtDouble m = Nat.sqrt m + 1 ∧ Nat.sqrt m * Nat.sqrt m ≠ m) := by
  unfold intOfSqrtDouble
  simp only []
  by_cases h : Nat.sqrt m * Nat.sqrt m = m
  · rw [if_pos h]
    exact Or.inl rfl
  · rw [if_neg h]
    split
    · exact Or.inr ⟨rfl, h⟩
    · exact Or.inl rfl

/-- Below 2^52 the truncated double square root is the integer square root. -/
theorem intOfSqrtDouble_eq_sqrt (m : Nat) (hm : m < 2 ^ 52) :
    intOfSqrtDouble m = Nat.sqrt m := by
  unfold intOfSqrtDouble
  simp only []
  by_cases h : Nat.sqrt m * Nat.sqrt m = m
  · rw [if_pos h]
  · rw [if_neg h, if_neg]
    -- the root is positive and below 2^26
    have hk2 : Nat.sqrt m * Nat.sqrt m ≤ m := Nat.sqrt_le m
    have hk0 : Nat.sqrt m ≠ 0 := by
      intro h0
      have h1 := Nat.lt_succ_sqrt m
      rw [h0] at h1 hk2 h
      simp at h1
      exact h (by omega)
    have hk26 : Nat.sqrt m < 2 ^ 26 := by
      rw [Nat.sqrt_lt]
      calc m < 2 ^ 52 := hm
        _ = 2 ^ 26 * 2 ^ 26 := by norm_num
    have he : Nat.log2 (Nat.sqrt m) < 26 := (Nat.log2_lt hk0).2 hk26
    have hK : Nat.sqrt m + 1 ≤ 2 ^ (Nat.log2 (Nat.sqrt m) + 1) := Nat.lt_log2_self
    have hm1 : m + 1 ≤ (Nat.sqrt m + 1) * (Nat.sqrt m + 1) := Nat.lt_succ_sqrt m
    -- the spacing term dominates
    have hT : 2 * (Nat.sqrt m + 1) ≤ 2 ^ (53 - Nat.log2 (Nat.sqrt m)) := by
      calc 2 * (Nat.sqrt m + 1) ≤ 2 * 2 ^ (Nat.log2 (Nat.sqrt m) + 1) :=
            Nat.mul_le_mul_left 2 hK
        _ = 2 ^ (Nat.log2 (Nat.sqrt m) + 2) := by ring
        _ ≤ 2 ^ (53 - Nat.log2 (Nat.sqrt m)) :=
            Nat.pow_le_pow_right (by norm_num) (by omega)
    rw [pow_mul']
    generalize 2 ^ (53 - Nat.log2 (Nat.sqrt m)) = T at hT ⊢
    generalize Nat.sqrt m + 1 = K at hT hm1 ⊢
    have hKT : 1 ≤ K * T := by nlinarith
    have hm1' : ((m : Int) + 1) ≤ (K : Int) * K := by exact_mod_cast hm1
    have hT' : 2 * (K : Int) ≤ (T : Int) := by exact_mod_cast hT
    have hT0 : (0 : Int) ≤ (T : Int) := by positivity
    have h1 : ((m : Int) + 1) * ((T : Int) * T) ≤ (K : Int) * K * ((T : Int) * T) :=
      mul_le_mul_of_nonneg_right hm1' (mul_nonneg hT0 hT0)
    have h2 : (0 : Int) ≤ (T : Int) * ((T : Int) - 2 * K) :=
      mul_nonneg hT0 (by linarith)
    rw [gt_iff_lt, not_lt]
    zify [hKT]
    nlinarith

/-- Below 2^52 the value of `(int) sqrt( dist_sq )` is the integer square root. -/
theorem cIntSqrt_eq_Int_sqrt (D : Int) (h : D < 2 ^ 52) : cIntSqrt D = Int.sqrt D := by
  have h1 : D.toNat < 2 ^ 52 := by omega
  unfold cIntSqrt Int.sqrt
  rw [doubleOfInt_of_lt _ (by omega), intOfSqrtDouble_eq_sqrt _ h1]

/-- Below 2^53 the value of `(int) sqrt( dist_sq )` is the integer square root or, only for a
non-square, one more. -/
theorem cIntSqrt_cases (D : Int) (h : D < 2 ^ 53) :
    cIntSqrt D = Int.sqrt D ∨
      (cIntSqrt D = Int.sqrt D + 1 ∧ Int.sqrt D * Int.sqrt D ≠ D) := by
  have h1 : D.toNat < 2 ^ 53 := by omega
  unfold cIntSqrt Int.sqrt
  rw [doubleOfInt_of_lt _ h1]
  rcases intOfSqrtDouble_cases D.toNat with hc | ⟨hc, hne⟩
  · left
    rw [hc]
  · right
    refine ⟨by rw [hc]; push_cast; ring, ?_⟩
    intro he
    apply hne
    have h0 : 0 ≤ D := by
      rw [← he]
      exact mul_self_nonneg _
    have h2 : ((Nat.sqrt D.toNat * Nat.sqrt D.toNat : Nat) : Int) = (D.toNat : Int) := by
      push_cast
      rw [he, Int.toNat_of_nonneg h0]
    exact_mod_cast h2

/-- The squared distance 5184000144000000 of the point (72000000, 12000) from the origin has
the integer square root 72000000, and `(int) sqrt( dist_sq )` is 72000001. -/
theorem cIntSqrt_rounds_up :
    Int.sqrt 5184000144000000 = 72000000 ∧ cIntSqrt 5184000144000000 = 72000001 := by
  have hs : Nat.sqrt 5184000144000000 = 72000000 := by
    symm
    rw [Nat.eq_sqrt]
    constructor <;> norm_num
  have hl : Nat.log2 72000000 = 26 := by
    have h1 : 26 ≤ Nat.log2 72000000 := (Nat.le_log2 (by norm_num)).2 (by norm_num)
    have h2 : Nat.log2 72000000 < 27 := (Nat.log2_lt (by norm_num)).2 (by norm_num)
    omega
  constructor
  · unfold Int.sqrt
    rw [show (5184000144000000 : Int).toNat = 5184000144000000 from rfl, hs]
    rfl
  · unfold cIntSqrt
    rw [show (5184000144000000 : Int).toNat = 5184000144000000 from rfl,
      doubleOfInt_of_lt _ (by norm_num)]
    unfold intOfSqrtDouble
    simp only [hs, hl]
    norm_num

/-- The contents of `aActual` after a hit. -/
theorem SHAPE_CIRCLE.Collide_snd_of_hit (sd : SEG → VECTOR2I → Int) (self : SHAPE_CIRCLE)
    (aSeg : SEG) (aClearance a : Int)
    (h : (self.Collide sd aSeg aClearance (some a)).1 = true) :
    (self.Collide sd aSeg aClearance (some a)).2 =
      some (max 0 (cIntSqrt (sd aSeg self.m_center) - self.m_radius)) := by
  unfold SHAPE_CIRCLE.Collide at h ⊢
  simp only [] at h ⊢
  split <;> simp_all

/-- Sum of two vectors, componentwise. -/
theorem VECTOR2I.add_def (a b : VECTOR2I) : a + b = ⟨a.x + b.x, a.y + b.y⟩ := rfl

/-- Difference of two vectors, componentwise. -/
theorem VECTOR2I.sub_def (a b : VECTOR2I) : a - b = ⟨a.x - b.x, a.y - b.y⟩ := rfl

/-- Product of a vector and a scalar, componentwise. -/
theorem VECTOR2I.mul_def (a : VECTOR2I) (k : Int) : a * k = ⟨a.x * k, a.y * k⟩ := rfl

/-- The box of a circle whose radius plus clearance is non-negative: origin at the centre
minus `radius + clearance` on both axes, size twice `radius + clearance`. -/
theorem SHAPE_CIRCLE.BBox_of_nonneg (self : SHAPE_CIRCLE) (aClearance : Int)
    (h : 0 ≤ self.m_radius + aClearance) :
    self.BBox aClearance =
      { m_Pos := ⟨self.m_center.x - (self.m_radius + aClearance),
                  self.m_center.y - (self.m_radius + aClearance)⟩
        m_Size := ⟨(self.m_radius + aClearance) * 2, (self.m_radius + aClearance) * 2⟩ } := by
  have h2 : ¬ (self.m_radius + aClearance) * 2 < 0 := by omega
  simp [SHAPE_CIRCLE.BBox, BOX2I.new, BOX2I.Normalize, VECTOR2I.sub_def, VECTOR2I.mul_def, h2]

/-- Counterexample to C6: for the circle of radius 0 at the origin and the clearances
`-10 ≤ -5`, the point (10, 10) lies in `BBox(-10)` and not in `BBox(-5)`. -/
theorem SHAPE_CIRCLE.BBox_Subset_counterexample :
    (-10 : Int) ≤ -5 ∧
      ¬ BOX2I.Subset ((⟨0, ⟨0, 0⟩⟩ : SHAPE_CIRCLE).BBox (-10))
        ((⟨0, ⟨0, 0⟩⟩ : SHAPE_CIRCLE).BBox (-5)) := by
  refine ⟨by decide, fun h => ?_⟩
  have h1 := h ⟨10, 10⟩ (by decide)
  revert h1
  decide

/-- C6 (amended): for clearances `c1 ≤ c2` with `radius + c1` non-negative, the box
`BBox(c1)` is contained in the box `BBox(c2)`. -/
theorem SHAPE_CIRCLE.BBox_Subset_of_le (self : SHAPE_CIRCLE) (c1 c2 : Int) (hle : c1 ≤ c2)
    (h : 0 ≤ self.m_radius + c1) :
    BOX2I.Subset (self.BBox c1) (self.BBox c2) := by
  intro p
  rw [SHAPE_CIRCLE.BBox_of_nonneg self c1 h, SHAPE_CIRCLE.BBox_of_nonneg self c2 (by omega)]
  simp only [BOX2I.Contains, BOX2I.GetOrigin, BOX2I.GetEnd, VECTOR2I.add_def]
  intro hp
  omega

/-- Witness of the amended C6: radius 300 at (5, -7), clearances 0 and 200. -/
theorem SHAPE_CIRCLE.BBox_Subset_of_le_witness :
    BOX2I.Subset ((⟨300, ⟨5, -7⟩⟩ : SHAPE_CIRCLE).BBox 0)
      ((⟨300, ⟨5, -7⟩⟩ : SHAPE_CIRCLE).BBox 200) :=
  SHAPE_CIRCLE.BBox_Subset_of_le ⟨300, ⟨5, -7⟩⟩ 0 200 (by decide) (by decide)

/-- Counterexample to C7: for the circle of radius -4 at the origin and the clearance 10,
`r + c = 6` is non-negative, `BBox(10)` has the corners (-6, -6) and (6, 6), while `BBox(0)`
is stored with the corners (-4, -4) and (4, 4), which moved outwards by 10 are (-14, -14)
and (14, 14): `BBox(10)` is not `BBox(0)` inflated by 10. -/
theorem SHAPE_CIRCLE.BBox_inflated_counterexample :
    (0 : Int) ≤ -4 + 10 ∧
      ((⟨-4, ⟨0, 0⟩⟩ : SHAPE_CIRCLE).BBox 10).GetOrigin = ⟨-6, -6⟩ ∧
      ((⟨-4, ⟨0, 0⟩⟩ : SHAPE_CIRCLE).BBox 10).GetEnd = ⟨6, 6⟩ ∧
      ((⟨-4, ⟨0, 0⟩⟩ : SHAPE_CIRCLE).BBox 0).GetOrigin - ⟨10, 10⟩ = ⟨-14, -14⟩ ∧
      ((⟨-4, ⟨0, 0⟩⟩ : SHAPE_CIRCLE).BBox 0).GetEnd + ⟨10, 10⟩ = ⟨14, 14⟩ ∧
      ¬ (((⟨-4, ⟨0, 0⟩⟩ : SHAPE_CIRCLE).BBox 10).GetOrigin =
            ((⟨-4, ⟨0, 0⟩⟩ : SHAPE_CIRCLE).BBox 0).GetOrigin - ⟨10, 10⟩ ∧
          ((⟨-4, ⟨0, 0⟩⟩ : SHAPE_CIRCLE).BBox 10).GetEnd =
            ((⟨-4, ⟨0, 0⟩⟩ : SHAPE_CIRCLE).BBox 0).GetEnd + ⟨10, 10⟩) := by
  decide

/-- C7 (amended): for a circle with centre `(x, y)` and radius `r` and a clearance `c` with
`r + c` non-negative, the corners of `BBox(c)` are `(x - r - c, y - r - c)` and
`(x + r + c, y + r + c)`, its sides are `2 (r + c)` and it is centred on the centre of the
circle; when the radius itself is non-negative, `BBox(c)` is `BBox(0)` with every side
moved outwards by `c`. -/
theorem SHAPE_CIRCLE.BBox_inflated (self : SHAPE_CIRCLE) (aClearance : Int)
    (h : 0 ≤ self.m_radius + aClearance) :
    (self.BBox aClearance).GetOrigin =
        ⟨self.m_center.x - self.m_radius - aClearance,
         self.m_center.y - self.m_radius - aClearance⟩ ∧
      (self.BBox aClearance).GetEnd =
        ⟨self.m_center.x + self.m_radius + aClearance,
         self.m_center.y + self.m_radius + aClearance⟩ ∧
      (self.BBox aClearance).GetSize =
        ⟨2 * (self.m_radius + aClearance), 2 * (self.m_radius + aClearance)⟩ ∧
      (self.BBox aClearance).GetOrigin + (self.BBox aClearance).GetEnd =
        self.m_center * (2 : Int) ∧
      (0 ≤ self.m_radius →
        (self.BBox aClearance).GetOrigin =
            (self.BBox 0).GetOrigin - ⟨aClearance, aClearance⟩ ∧
          (self.BBox aClearance).GetEnd =
            (self.BBox 0).GetEnd + ⟨aClearance, aClearance⟩) := by
  rw [SHAPE_CIRCLE.BBox_of_nonneg self aClearance h]
  refine ⟨?_, ?_, ?_, ?_, ?_⟩
  · simp only [BOX2I.GetOrigin, VECTOR2I.mk.injEq]
    constructor <;> ring
  · simp only [BOX2I.GetEnd, VECTOR2I.add_def, VECTOR2I.mk.injEq]
    constructor <;> ring
  · simp only [BOX2I.GetSize, VECTOR2I.mk.injEq]
    constructor <;> ring
  · simp only [BOX2I.GetOrigin, BOX2I.GetEnd, VECTOR2I.add_def, VECTOR2I.mul_def,
      VECTOR2I.mk.injEq]
    constructor <;> ring
  · intro hr
    rw [SHAPE_CIRCLE.BBox_of_nonneg self 0 (by omega)]
    simp only [BOX2I.GetOrigin, BOX2I.GetEnd, VECTOR2I.add_def, VECTOR2I.sub_def,
      VECTOR2I.mk.injEq]
    refine ⟨⟨?_, ?_⟩, ⟨?_, ?_⟩⟩ <;> ring

/-- Witness of the amended C7: radius 300 at (5, -7), clearance -100. -/
theorem SHAPE_CIRCLE.BBox_inflated_witness :
    ((⟨300, ⟨5, -7⟩⟩ : SHAPE_CIRCLE).BBox (-100)).GetOrigin = ⟨-195, -207⟩ ∧
      ((⟨300, ⟨5, -7⟩⟩ : SHAPE_CIRCLE).BBox (-100)).GetEnd = ⟨205, 193⟩ ∧
      ((⟨300, ⟨5, -7⟩⟩ : SHAPE_CIRCLE).BBox (-100)).GetOrigin =
        ((⟨300, ⟨5, -7⟩⟩ : SHAPE_CIRCLE).BBox 0).GetOrigin - ⟨-100, -100⟩ ∧
      ((⟨300, ⟨5, -7⟩⟩ : SHAPE_CIRCLE).BBox (-100)).GetEnd =
        ((⟨300, ⟨5, -7⟩⟩ : SHAPE_CIRCLE).BBox 0).GetEnd + ⟨-100, -100⟩ :=
  ⟨(SHAPE_CIRCLE.BBox_inflated ⟨300, ⟨5, -7⟩⟩ (-100) (by decide)).1,
    (SHAPE_CIRCLE.BBox_inflated ⟨300, ⟨5, -7⟩⟩ (-100) (by decide)).2.1,
    (SHAPE_CIRCLE.BBox_inflated ⟨300, ⟨5, -7⟩⟩ (-100) (by decide)).2.2.2.2 (by decide)⟩

/-! ## Claims on `PNS::VIA` -/

/-- Truncating division by 2 of a non-negative integer is its floor division by 2. -/
theorem Int_tdiv_two_of_nonneg (a : Int) (h : 0 ≤ a) : Int.tdiv a 2 = a / 2 :=
  Int.tdiv_eq_ediv h (by decide)

/-- Truncating division by 2 of a non-positive integer negates the floor division by 2 of
its negation: the quotient is rounded toward zero. -/
theorem Int_tdiv_two_of_nonpos (a : Int) (h : a ≤ 0) : Int.tdiv a 2 = -(-a / 2) := by
  have h1 : Int.tdiv (-a) 2 = -a / 2 := Int.tdiv_eq_ediv (by omega) (by decide)
  rw [Int.neg_tdiv] at h1
  omega

/-- C8: the via built by `VIA( pos, layers, diameter, drill, net, viaType )` reports the
position, diameter, drill and via type it was given, and holds two circles centred at
`pos`: the primary shape of radius `diameter / 2` and the alternate shape of radius
`drill / 2`, the division truncating toward zero. -/
theorem PNS.VIA.new_attributes (base : PNS.ITEM) (aPos : VECTOR2I) (aLayers : PNS.LAYER_RANGE)
    (aDiameter aDrill aNet : Int) (aViaType : PNS.VIATYPE) :
    (PNS.VIA.new base aPos aLayers aDiameter aDrill aNet aViaType).Pos = aPos ∧
      (PNS.VIA.new base aPos aLayers aDiameter aDrill aNet aViaType).Diameter = aDiameter ∧
      (PNS.VIA.new base aPos aLayers aDiameter aDrill aNet aViaType).Drill = aDrill ∧
      (PNS.VIA.new base aPos aLayers aDiameter aDrill aNet aViaType).ViaType = aViaType ∧
      (PNS.VIA.new base aPos aLayers aDiameter aDrill aNet aViaType).Shape.GetCenter = aPos ∧
      (PNS.VIA.new base aPos aLayers aDiameter aDrill aNet aViaType).Shape.GetRadius =
        Int.tdiv aDiameter 2 ∧
      (PNS.VIA.new base aPos aLayers aDiameter aDrill aNet aViaType).AlternateShape.GetCenter =
        aPos ∧
      (PNS.VIA.new base aPos aLayers aDiameter aDrill aNet aViaType).AlternateShape.GetRadius =
        Int.tdiv aDrill 2 ∧
      (0 ≤ aDiameter → Int.tdiv aDiameter 2 = aDiameter / 2) ∧
      (aDiameter ≤ 0 → Int.tdiv aDiameter 2 = -(-aDiameter / 2)) ∧
      (0 ≤ aDrill → Int.tdiv aDrill 2 = aDrill / 2) ∧
      (aDrill ≤ 0 → Int.tdiv aDrill 2 = -(-aDrill / 2)) :=
  ⟨rfl, rfl, rfl, rfl, rfl, rfl, rfl, rfl, Int_tdiv_two_of_nonneg aDiameter,
    Int_tdiv_two_of_nonpos aDiameter, Int_tdiv_two_of_nonneg aDrill,
    Int_tdiv_two_of_nonpos aDrill⟩

/-- Witness of C8: diameter 601 and drill -5 at (3, 4): the radii are 300 and -2. -/
theorem PNS.VIA.new_attributes_witness :
    (PNS.VIA.new ⟨.VIA_T, none, ⟨0, 0⟩, -1, 0, -1⟩ ⟨3, 4⟩ ⟨0, 15⟩ 601 (-5) 1
        .MICROVIA).Shape.GetRadius = 601 / 2 ∧
      (PNS.VIA.new ⟨.VIA_T, none, ⟨0, 0⟩, -1, 0, -1⟩ ⟨3, 4⟩ ⟨0, 15⟩ 601 (-5) 1
        .MICROVIA).AlternateShape.GetRadius = -(- -5 / 2) :=
  ⟨((PNS.VIA.new_attributes ⟨.VIA_T, none, ⟨0, 0⟩, -1, 0, -1⟩ ⟨3, 4⟩ ⟨0, 15⟩ 601 (-5) 1
      .MICROVIA).2.2.2.2.2.1).trans
      ((PNS.VIA.new_attributes ⟨.VIA_T, none, ⟨0, 0⟩, -1, 0, -1⟩ ⟨3, 4⟩ ⟨0, 15⟩ 601 (-5) 1
        .MICROVIA).2.2.2.2.2.2.2.2.1 (by decide)),
    ((PNS.VIA.new_attributes ⟨.VIA_T, none, ⟨0, 0⟩, -1, 0, -1⟩ ⟨3, 4⟩ ⟨0, 15⟩ 601 (-5) 1
      .MICROVIA).2.2.2.2.2.2.2.1).trans
      ((PNS.VIA.new_attributes ⟨.VIA_T, none, ⟨0, 0⟩, -1, 0, -1⟩ ⟨3, 4⟩ ⟨0, 15⟩ 601 (-5) 1
        .MICROVIA).2.2.2.2.2.2.2.2.2.2.2 (by decide))⟩

/-- Every call keeps the primary shape in agreement with position and diameter. -/
theorem PNS.VIA.ShapeConsistent_step (v : PNS.VIA) (op : PNS.VIA.Op)
    (h : v.ShapeConsistent) : (v.step op).ShapeConsistent := by
  unfold PNS.VIA.ShapeConsistent at h ⊢
  cases op <;>
    simp_all [PNS.VIA.step, PNS.VIA.SetPos, PNS.VIA.SetDiameter, PNS.VIA.SetDrill,
      PNS.VIA.SetViaType, PNS.VIA.copy, PNS.VIA.Shape, PNS.VIA.Pos, PNS.VIA.Diameter,
      SHAPE_CIRCLE.new, SHAPE_CIRCLE.SetCenter, SHAPE_CIRCLE.SetRadius]

/-- A sequence of calls keeps the primary shape in agreement with position and diameter. -/
theorem PNS.VIA.ShapeConsistent_run (ops : List PNS.VIA.Op) :
    ∀ v : PNS.VIA, v.ShapeConsistent → (v.run ops).ShapeConsistent := by
  induction ops with
  | nil => intro v h; exact h
  | cons op ops ih =>
    intro v h
    exact ih (v.step op) (PNS.VIA.ShapeConsistent_step v op h)

/-- C9: after the constructor `VIA( pos, layers, diameter, drill, net, viaType )` and any
finite sequence of `SetPos`, `SetDiameter`, `SetDrill`, `SetViaType` calls and copy
constructions, the primary shape is the circle with centre `Pos()` and radius
`Diameter() / 2`. -/
theorem PNS.VIA.Shape_invariant (base : PNS.ITEM) (aPos : VECTOR2I) (aLayers : PNS.LAYER_RANGE)
    (aDiameter aDrill aNet : Int) (aViaType : PNS.VIATYPE) (ops : List PNS.VIA.Op) :
    ((PNS.VIA.new base aPos aLayers aDiameter aDrill aNet aViaType).run ops).Shape =
      SHAPE_CIRCLE.new
        ((PNS.VIA.new base aPos aLayers aDiameter aDrill aNet aViaType).run ops).Pos
        (Int.tdiv
          ((PNS.VIA.new base aPos aLayers aDiameter aDrill aNet aViaType).run ops).Diameter 2) :=
  PNS.VIA.ShapeConsistent_run ops _ rfl

/-- C10 at the failing input: the via of diameter 600 and drill 250 built at the origin and
then moved by `SetPos` to (100, 0) reports the position (100, 0) and has its primary shape
centred there, while its alternate shape is still centred at the origin. -/
theorem PNS.VIA.SetPos_AlternateShape_stale :
    ((PNS.VIA.new ⟨.VIA_T, none, ⟨0, 0⟩, -1, 0, -1⟩ ⟨0, 0⟩ ⟨0, 15⟩ 600 250 1
        .THROUGH).SetPos ⟨100, 0⟩).Pos = ⟨100, 0⟩ ∧
      ((PNS.VIA.new ⟨.VIA_T, none, ⟨0, 0⟩, -1, 0, -1⟩ ⟨0, 0⟩ ⟨0, 15⟩ 600 250 1
        .THROUGH).SetPos ⟨100, 0⟩).Shape.GetCenter = ⟨100, 0⟩ ∧
      ((PNS.VIA.new ⟨.VIA_T, none, ⟨0, 0⟩, -1, 0, -1⟩ ⟨0, 0⟩ ⟨0, 15⟩ 600 250 1
        .THROUGH).SetPos ⟨100, 0⟩).AlternateShape.GetCenter = ⟨0, 0⟩ := by
  decide


/-- C11 at the failing input: the via of diameter 600 and drill 250 built at the origin and
then given the drill 100 by `SetDrill` reports the drill 100, half of which is 50, while its
alternate shape still has the radius 125. -/
theorem PNS.VIA.SetDrill_AlternateShape_stale :
    ((PNS.VIA.new ⟨.VIA_T, none, ⟨0, 0⟩, -1, 0, -1⟩ ⟨0, 0⟩ ⟨0, 15⟩ 600 250 1
        .THROUGH).SetDrill 100).Drill = 100 ∧
      Int.tdiv ((PNS.VIA.new ⟨.VIA_T, none, ⟨0, 0⟩, -1, 0, -1⟩ ⟨0, 0⟩ ⟨0, 15⟩ 600 250 1
        .THROUGH).SetDrill 100).Drill 2 = 50 ∧
      ((PNS.VIA.new ⟨.VIA_T, none, ⟨0, 0⟩, -1, 0, -1⟩ ⟨0, 0⟩ ⟨0, 15⟩ 600 250 1
        .THROUGH).SetDrill 100).AlternateShape.GetRadius = 125 := by
  decide

/-- C12: the copy of a via has the position, diameter, drill, via type, net, layers, rank and
marker of the original and its two shapes are rebuilt from position, diameter and drill; at
the failing input, the via of diameter 600 and drill 250 at the origin after `SetDrill( 100 )`,
the primary shapes agree and the alternate shape of the copy (radius 50) differs from the
alternate shape of the original (radius 125). -/
theorem PNS.VIA.copy_AlternateShape_differs (base : PNS.ITEM) (v : PNS.VIA) :
    ((PNS.VIA.copy base v).Pos = v.Pos ∧
      (PNS.VIA.copy base v).Diameter = v.Diameter ∧
      (PNS.VIA.copy base v).Drill = v.Drill ∧
      (PNS.VIA.copy base v).ViaType = v.ViaType ∧
      (PNS.VIA.copy base v).m_net = v.m_net ∧
      (PNS.VIA.copy base v).m_layers = v.m_layers ∧
      (PNS.VIA.copy base v).m_rank = v.m_rank ∧
      (PNS.VIA.copy base v).m_marker = v.m_marker ∧
      (PNS.VIA.copy base v).Shape = SHAPE_CIRCLE.new v.Pos (Int.tdiv v.Diameter 2) ∧
      (PNS.VIA.copy base v).AlternateShape = SHAPE_CIRCLE.new v.Pos (Int.tdiv v.Drill 2)) ∧
    ((PNS.VIA.copy base
        ((PNS.VIA.new ⟨.VIA_T, none, ⟨0, 0⟩, -1, 0, -1⟩ ⟨0, 0⟩ ⟨0, 15⟩ 600 250 1
          .THROUGH).SetDrill 100)).Shape =
        ((PNS.VIA.new ⟨.VIA_T, none, ⟨0, 0⟩, -1, 0, -1⟩ ⟨0, 0⟩ ⟨0, 15⟩ 600 250 1
          .THROUGH).SetDrill 100).Shape ∧
      (PNS.VIA.copy base
        ((PNS.VIA.new ⟨.VIA_T, none, ⟨0, 0⟩, -1, 0, -1⟩ ⟨0, 0⟩ ⟨0, 15⟩ 600 250 1
          .THROUGH).SetDrill 100)).AlternateShape = ⟨50, ⟨0, 0⟩⟩ ∧
      ((PNS.VIA.new ⟨.VIA_T, none, ⟨0, 0⟩, -1, 0, -1⟩ ⟨0, 0⟩ ⟨0, 15⟩ 600 250 1
          .THROUGH).SetDrill 100).AlternateShape = ⟨125, ⟨0, 0⟩⟩ ∧
      (PNS.VIA.copy base
        ((PNS.VIA.new ⟨.VIA_T, none, ⟨0, 0⟩, -1, 0, -1⟩ ⟨0, 0⟩ ⟨0, 15⟩ 600 250 1
          .THROUGH).SetDrill 100)).AlternateShape ≠
        ((PNS.VIA.new ⟨.VIA_T, none, ⟨0, 0⟩, -1, 0, -1⟩ ⟨0, 0⟩ ⟨0, 15⟩ 600 250 1
          .THROUGH).SetDrill 100).AlternateShape) := by
  have h1 : (PNS.VIA.copy base
      ((PNS.VIA.new ⟨.VIA_T, none, ⟨0, 0⟩, -1, 0, -1⟩ ⟨0, 0⟩ ⟨0, 15⟩ 600 250 1
        .THROUGH).SetDrill 100)).AlternateShape = ⟨50, ⟨0, 0⟩⟩ := rfl
  have h2 : ((PNS.VIA.new ⟨.VIA_T, none, ⟨0, 0⟩, -1, 0, -1⟩ ⟨0, 0⟩ ⟨0, 15⟩ 600 250 1
      .THROUGH).SetDrill 100).AlternateShape = ⟨125, ⟨0, 0⟩⟩ := rfl
  refine ⟨⟨rfl, rfl, rfl, rfl, rfl, rfl, rfl, rfl, rfl, rfl⟩, rfl, h1, h2, ?_⟩
  rw [h1, h2]
  decide

/-! ## Claims on `PNS::ARC` -/

/-- C13: `Clone` builds the new arc from `m_arc` and `m_net` alone, so two arcs with the same
geometry and net that differ in layers, rank, marker and parent have the same clone,
whatever the constructor does: the clones cannot both carry the layers of their original,
nor both the rank, nor both the marker, nor both the parent. -/
theorem PNS.ARC.Clone_drops_attributes {SHAPE_ARC : Type}
    (ctor : SHAPE_ARC → Int → PNS.ARC SHAPE_ARC) (aArc : SHAPE_ARC) (aNet : Int) :
    PNS.ARC.Clone ctor ⟨⟨.ARC_T, none, ⟨0, 0⟩, aNet, 0, 0⟩, aArc⟩ =
        PNS.ARC.Clone ctor ⟨⟨.ARC_T, some "uuid", ⟨3, 3⟩, aNet, 1, 7⟩, aArc⟩ ∧
      ¬ ((PNS.ARC.Clone ctor ⟨⟨.ARC_T, none, ⟨0, 0⟩, aNet, 0, 0⟩, aArc⟩).m_layers = ⟨0, 0⟩ ∧
        (PNS.ARC.Clone ctor ⟨⟨.ARC_T, some "uuid", ⟨3, 3⟩, aNet, 1, 7⟩, aArc⟩).m_layers =
          ⟨3, 3⟩) ∧
      ¬ ((PNS.ARC.Clone ctor ⟨⟨.ARC_T, none, ⟨0, 0⟩, aNet, 0, 0⟩, aArc⟩).m_rank = 0 ∧
        (PNS.ARC.Clone ctor ⟨⟨.ARC_T, some "uuid", ⟨3, 3⟩, aNet, 1, 7⟩, aArc⟩).m_rank = 7) ∧
      ¬ ((PNS.ARC.Clone ctor ⟨⟨.ARC_T, none, ⟨0, 0⟩, aNet, 0, 0⟩, aArc⟩).m_marker = 0 ∧
        (PNS.ARC.Clone ctor ⟨⟨.ARC_T, some "uuid", ⟨3, 3⟩, aNet, 1, 7⟩, aArc⟩).m_marker = 1) ∧
      ¬ ((PNS.ARC.Clone ctor ⟨⟨.ARC_T, none, ⟨0, 0⟩, aNet, 0, 0⟩, aArc⟩).m_parent = none ∧
        (PNS.ARC.Clone ctor ⟨⟨.ARC_T, some "uuid", ⟨3, 3⟩, aNet, 1, 7⟩, aArc⟩).m_parent =
          some "uuid") := by
  have e : PNS.ARC.Clone ctor ⟨⟨.ARC_T, none, ⟨0, 0⟩, aNet, 0, 0⟩, aArc⟩ =
      PNS.ARC.Clone ctor ⟨⟨.ARC_T, some "uuid", ⟨3, 3⟩, aNet, 1, 7⟩, aArc⟩ := rfl
  refine ⟨e, ?_, ?_, ?_, ?_⟩
  · rintro ⟨h1, h2⟩
    rw [e, h2] at h1
    exact absurd h1 (by decide)
  · rintro ⟨h1, h2⟩
    rw [e, h2] at h1
    exact absurd h1 (by decide)
  · rintro ⟨h1, h2⟩
    rw [e, h2] at h1
    exact absurd h1 (by decide)
  · rintro ⟨h1, h2⟩
    rw [e, h2] at h1
    exact absurd h1 (by decide)

/-- A box with non-negative size is in stored form already. -/
theorem BOX2I.Normalize_of_nonneg (b : BOX2I) (hx : 0 ≤ b.m_Size.x) (hy : 0 ≤ b.m_Size.y) :
    b.Normalize = b := by
  have h1 : ¬ b.m_Size.x < 0 := by omega
  have h2 : ¬ b.m_Size.y < 0 := by omega
  simp [BOX2I.Normalize, h1, h2]

/-- The region of the merge of two boxes with non-negative sizes: between the smaller origin
and the larger end on both axes. -/
theorem BOX2I.Merge_Contains_iff (a b : BOX2I) (hax : 0 ≤ a.m_Size.x) (hay : 0 ≤ a.m_Size.y)
    (hbx : 0 ≤ b.m_Size.x) (hby : 0 ≤ b.m_Size.y) (p : VECTOR2I) :
    (a.Merge b).Contains p ↔
      (min a.m_Pos.x b.m_Pos.x ≤ p.x ∧ p.x ≤ max (a.m_Pos.x + a.m_Size.x) (b.m_Pos.x + b.m_Size.x) ∧
        min a.m_Pos.y b.m_Pos.y ≤ p.y ∧
        p.y ≤ max (a.m_Pos.y + a.m_Size.y) (b.m_Pos.y + b.m_Size.y)) := by
  simp only [BOX2I.Merge, BOX2I.Normalize_of_nonneg a hax hay,
    BOX2I.Normalize_of_nonneg b hbx hby, BOX2I.Contains, BOX2I.GetOrigin, BOX2I.GetEnd,
    VECTOR2I.add_def, VECTOR2I.sub_def]
  constructor <;> intro h <;> omega

/-- A box with non-negative size contains its origin and its end, so a box that contains it
as a region starts at or before its origin and ends at or after its end. -/
theorem BOX2I.bounds_of_Subset (a c : BOX2I) (hax : 0 ≤ a.m_Size.x) (hay : 0 ≤ a.m_Size.y)
    (h : a.Subset c) :
    c.m_Pos.x ≤ a.m_Pos.x ∧ a.m_Pos.x + a.m_Size.x ≤ c.m_Pos.x + c.m_Size.x ∧
      c.m_Pos.y ≤ a.m_Pos.y ∧ a.m_Pos.y + a.m_Size.y ≤ c.m_Pos.y + c.m_Size.y := by
  have h1 := h a.GetOrigin (by
    simp only [BOX2I.Contains, BOX2I.GetOrigin, BOX2I.GetEnd, VECTOR2I.add_def]; omega)
  have h2 := h a.GetEnd (by
    simp only [BOX2I.Contains, BOX2I.GetOrigin, BOX2I.GetEnd, VECTOR2I.add_def]; omega)
  simp only [BOX2I.Contains, BOX2I.GetOrigin, BOX2I.GetEnd, VECTOR2I.add_def] at h1 h2
  omega

/-- C14: for arcs whose bounding boxes have non-negative size, `ChangedArea` is a present box,
it contains the zero-clearance bounding boxes of both arcs, and every box that contains
both contains it. -/
theorem PNS.ARC.ChangedArea_minimal {SHAPE_ARC : Type} (BBox : SHAPE_ARC → Int → BOX2I)
    (a b : PNS.ARC SHAPE_ARC)
    (ha : 0 ≤ (BBox a.Shape 0).m_Size.x ∧ 0 ≤ (BBox a.Shape 0).m_Size.y)
    (hb : 0 ≤ (BBox b.Shape 0).m_Size.x ∧ 0 ≤ (BBox b.Shape 0).m_Size.y) :
    ∃ box : BOX2I, a.ChangedArea BBox b = some box ∧
      (BBox a.Shape 0).Subset box ∧ (BBox b.Shape 0).Subset box ∧
      ∀ c : BOX2I, (BBox a.Shape 0).Subset c → (BBox b.Shape 0).Subset c → box.Subset c := by
  refine ⟨(BBox a.Shape 0).Merge (BBox b.Shape 0), rfl, ?_, ?_, ?_⟩
  · intro p hp
    rw [BOX2I.Merge_Contains_iff _ _ ha.1 ha.2 hb.1 hb.2]
    simp only [BOX2I.Contains, BOX2I.GetOrigin, BOX2I.GetEnd, VECTOR2I.add_def] at hp
    omega
  · intro p hp
    rw [BOX2I.Merge_Contains_iff _ _ ha.1 ha.2 hb.1 hb.2]
    simp only [BOX2I.Contains, BOX2I.GetOrigin, BOX2I.GetEnd, VECTOR2I.add_def] at hp
    omega
  · intro c hac hbc p hp
    rw [BOX2I.Merge_Contains_iff _ _ ha.1 ha.2 hb.1 hb.2] at hp
    have h1 := BOX2I.bounds_of_Subset _ c ha.1 ha.2 hac
    have h2 := BOX2I.bounds_of_Subset _ c hb.1 hb.2 hbc
    simp only [BOX2I.Contains, BOX2I.GetOrigin, BOX2I.GetEnd, VECTOR2I.add_def]
    omega

/-- Witness of C14: two full-circle arcs (geometry and bounding box of `SHAPE_CIRCLE`), radius
300 at the origin and radius 100 at (500, 0): the changed area is the box from (-300, -300)
to (600, 300). -/
theorem PNS.ARC.ChangedArea_minimal_witness :
    PNS.ARC.ChangedArea SHAPE_CIRCLE.BBox
        (⟨⟨.ARC_T, none, ⟨0, 0⟩, 1, 0, 0⟩, ⟨300, ⟨0, 0⟩⟩⟩ : PNS.ARC SHAPE_CIRCLE)
        ⟨⟨.ARC_T, none, ⟨0, 0⟩, 1, 0, 0⟩, ⟨100, ⟨500, 0⟩⟩⟩ =
        some ⟨⟨-300, -300⟩, ⟨900, 600⟩⟩ ∧
      ∃ box : BOX2I,
        PNS.ARC.ChangedArea SHAPE_CIRCLE.BBox
          (⟨⟨.ARC_T, none, ⟨0, 0⟩, 1, 0, 0⟩, ⟨300, ⟨0, 0⟩⟩⟩ : PNS.ARC SHAPE_CIRCLE)
          ⟨⟨.ARC_T, none, ⟨0, 0⟩, 1, 0, 0⟩, ⟨100, ⟨500, 0⟩⟩⟩ = some box ∧
        ((⟨300, ⟨0, 0⟩⟩ : SHAPE_CIRCLE).BBox 0).Subset box ∧
        ((⟨100, ⟨500, 0⟩⟩ : SHAPE_CIRCLE).BBox 0).Subset box ∧
        ∀ c : BOX2I, ((⟨300, ⟨0, 0⟩⟩ : SHAPE_CIRCLE).BBox 0).Subset c →
          ((⟨100, ⟨500, 0⟩⟩ : SHAPE_CIRCLE).BBox 0).Subset c → box.Subset c :=
  ⟨by decide,
    PNS.ARC.ChangedArea_minimal SHAPE_CIRCLE.BBox
      (⟨⟨.ARC_T, none, ⟨0, 0⟩, 1, 0, 0⟩, ⟨300, ⟨0, 0⟩⟩⟩ : PNS.ARC SHAPE_CIRCLE)
      ⟨⟨.ARC_T, none, ⟨0, 0⟩, 1, 0, 0⟩, ⟨100, ⟨500, 0⟩⟩⟩ (by decide) (by decide)⟩

/-- C15: for an arc whose bounding box has non-negative size, the changed area of the arc
against itself is a present box contained in (indeed equal to) its zero-clearance bounding
box. -/
theorem PNS.ARC.ChangedArea_self {SHAPE_ARC : Type} (BBox : SHAPE_ARC → Int → BOX2I)
    (a : PNS.ARC SHAPE_ARC)
    (ha : 0 ≤ (BBox a.Shape 0).m_Size.x ∧ 0 ≤ (BBox a.Shape 0).m_Size.y) :
    ∃ box : BOX2I, a.ChangedArea BBox a = some box ∧ box.Subset (BBox a.Shape 0) ∧
      box = BBox a.Shape 0 := by
  have e : (BBox a.Shape 0).Merge (BBox a.Shape 0) = BBox a.Shape 0 := by
    simp only [BOX2I.Merge, BOX2I.Normalize_of_nonneg _ ha.1 ha.2, BOX2I.GetEnd,
      VECTOR2I.add_def, VECTOR2I.sub_def, min_self, max_self]
    cases h : BBox a.Shape 0 with
    | mk pos size =>
      cases pos
      cases size
      simp
  refine ⟨(BBox a.Shape 0).Merge (BBox a.Shape 0), rfl, ?_, e⟩
  rw [e]
  intro p hp
  exact hp

/-- Witness of C15: the full-circle arc of radius 300 at (5, -7). -/
theorem PNS.ARC.ChangedArea_self_witness :
    PNS.ARC.ChangedArea SHAPE_CIRCLE.BBox
        (⟨⟨.ARC_T, none, ⟨0, 0⟩, 1, 0, 0⟩, ⟨300, ⟨5, -7⟩⟩⟩ : PNS.ARC SHAPE_CIRCLE)
        ⟨⟨.ARC_T, none, ⟨0, 0⟩, 1, 0, 0⟩, ⟨300, ⟨5, -7⟩⟩⟩ =
        some ⟨⟨-295, -307⟩, ⟨600, 600⟩⟩ ∧
      ∃ box : BOX2I,
        PNS.ARC.ChangedArea SHAPE_CIRCLE.BBox
          (⟨⟨.ARC_T, none, ⟨0, 0⟩, 1, 0, 0⟩, ⟨300, ⟨5, -7⟩⟩⟩ : PNS.ARC SHAPE_CIRCLE)
          ⟨⟨.ARC_T, none, ⟨0, 0⟩, 1, 0, 0⟩, ⟨300, ⟨5, -7⟩⟩⟩ = some box ∧
        box.Subset ((⟨300, ⟨5, -7⟩⟩ : SHAPE_CIRCLE).BBox 0) ∧
        box = (⟨300, ⟨5, -7⟩⟩ : SHAPE_CIRCLE).BBox 0 :=
  ⟨by decide,
    PNS.ARC.ChangedArea_self SHAPE_CIRCLE.BBox
      (⟨⟨.ARC_T, none, ⟨0, 0⟩, 1, 0, 0⟩, ⟨300, ⟨5, -7⟩⟩⟩ : PNS.ARC SHAPE_CIRCLE) (by decide)⟩

/-! ## Claims on `PNS::LOGGER` -/

/-- The event sequence after a sequence of `Log` calls: the sequence before, followed by one
entry per call, in call order. -/
theorem PNS.LOGGER.logAll_events (calls : List PNS.LOGGER.Call) :
    ∀ l : PNS.LOGGER, (l.logAll calls).m_events =
      l.m_events ++ calls.map (fun c => ({ item := c.item, type := c.evt, p := c.pos } :
        PNS.EVENT_ENTRY)) := by
  induction calls with
  | nil => intro l; simp [PNS.LOGGER.logAll]
  | cons c cs ih =>
    intro l
    have h := ih (l.Log c.evt c.pos c.item)
    simp only [PNS.LOGGER.logAll, List.foldl_cons] at h ⊢
    rw [h]
    simp [PNS.LOGGER.Log]

/-- C16: `Log` appends exactly one entry `{type, pos, item}` after the existing event
sequence, which stays as it was (same entries, same order), and after any sequence of
`Log` calls on an empty logger the event sequence is the entries of the calls in call
order. -/
theorem PNS.LOGGER.Log_append (l : PNS.LOGGER) (evt : Int) (pos : VECTOR2I)
    (item : Option PNS.ITEM) :
    (l.Log evt pos item).m_events = l.m_events ++ [{ item := item, type := evt, p := pos }] ∧
      (l.Log evt pos item).m_events.length = l.m_events.length + 1 ∧
      (l.Log evt pos item).m_events.take l.m_events.length = l.m_events ∧
      (∀ calls : List PNS.LOGGER.Call, (PNS.LOGGER.new.logAll calls).m_events =
        calls.map (fun c => ({ item := c.item, type := c.evt, p := c.pos } :
          PNS.EVENT_ENTRY))) := by
  refine ⟨rfl, ?_, ?_, ?_⟩
  · simp [PNS.LOGGER.Log]
  · simp [PNS.LOGGER.Log]
  · intro calls
    rw [PNS.LOGGER.logAll_events]
    simp [PNS.LOGGER.new]

/-- The loop of `Save` on an open stream: it runs into the dangling `idString` at the first
entry with provenance, and leaves the stream as it is when there is none. -/
theorem PNS.LOGGER.saveLoop_some (events : List PNS.EVENT_ENTRY) (file : PNS.FILE) :
    PNS.LOGGER.saveLoop (some file) events =
      if events.any PNS.EVENT_ENTRY.hasProvenance then .error .DANGLING_POINTER
      else .ok (some file) := by
  induction events with
  | nil => rfl
  | cons evt rest ih =>
    rcases hi : evt.item with _ | item
    · simp [PNS.LOGGER.saveLoop, PNS.LOGGER.saveEvent, PNS.EVENT_ENTRY.hasProvenance, hi, ih]
    · rcases hp : item.m_parent with _ | m_Uuid
      · simp [PNS.LOGGER.saveLoop, PNS.LOGGER.saveEvent, PNS.EVENT_ENTRY.hasProvenance, hi,
          hp, ih]
      · simp [PNS.LOGGER.saveLoop, PNS.LOGGER.saveEvent, PNS.EVENT_ENTRY.hasProvenance, hi,
          hp, PNS.fprintf, PNS.CHAR_PTR.read, PNS.CHAR_PTR.endOfFullExpression,
          PNS.KIID.AsString_c_str]

/-- The loop of `Save` on a null stream: a fault, or the null stream again. -/
theorem PNS.LOGGER.saveLoop_none (events : List PNS.EVENT_ENTRY) :
    PNS.LOGGER.saveLoop none events = .error .NULL_STREAM ∨
      PNS.LOGGER.saveLoop none events = .ok none := by
  induction events with
  | nil => exact Or.inr rfl
  | cons evt rest ih =>
    rcases hi : evt.item with _ | item
    · simpa [PNS.LOGGER.saveLoop, PNS.LOGGER.saveEvent, hi] using ih
    · rcases hp : item.m_parent with _ | idString
      · simpa [PNS.LOGGER.saveLoop, PNS.LOGGER.saveEvent, hi, hp] using ih
      · left
        simp [PNS.LOGGER.saveLoop, PNS.LOGGER.saveEvent, hi, hp, PNS.fprintf]

/-- C17: after `Clear` the event sequence is empty, an immediately following `Save` writes
nothing (the loop leaves any stream as it is, and on a freshly opened stream the finished
file is empty), and an immediately following `Log` leaves exactly the one new entry. -/
theorem PNS.LOGGER.Clear_discards (l : PNS.LOGGER) :
    l.Clear.m_events = [] ∧
      (∀ f : Option PNS.FILE, PNS.LOGGER.saveLoop f l.Clear.m_events = .ok f) ∧
      (l.Clear.Save (some PNS.FILE.fresh)).2 = .ok { data := "" } ∧
      (∀ (evt : Int) (pos : VECTOR2I) (item : Option PNS.ITEM),
        (l.Clear.Log evt pos item).m_events = [{ item := item, type := evt, p := pos }]) :=
  ⟨rfl, fun _ => rfl, rfl, fun _ _ _ => rfl⟩

/-- C18 at the failing inputs: on a path that can be opened, `Save` writes no line for an
entry with provenance: at the first such entry `fprintf` reads the identifier through
`idString`, a pointer into a string that was destroyed at the end of the preceding
statement, so the call runs into that fault and no text is defined; `Save` finishes, with
the stream as it was opened, exactly when no entry has provenance.  Three logged events with
provenance do not give the three lines: the call faults at the first of them, and so does
the call for a single entry with provenance. -/
theorem PNS.LOGGER.Save_dangling_id (l : PNS.LOGGER) (file : PNS.FILE) :
    (l.Save (some file)).2 =
        (if l.m_events.any PNS.EVENT_ENTRY.hasProvenance then .error .DANGLING_POINTER
         else .ok file) ∧
      ((((((PNS.LOGGER.new.Log 0 ⟨1, -2⟩ (some ⟨.VIA_T, some "aa", ⟨0, 0⟩, 1, 0, 0⟩)).Log 3
        ⟨9, 9⟩ none).Log 1 ⟨3, 4⟩ (some ⟨.ARC_T, some "bb", ⟨0, 0⟩, 1, 0, 0⟩)).Log 4 ⟨7, 8⟩
        (some ⟨.VIA_T, none, ⟨0, 0⟩, 1, 0, 0⟩)).Log 2 ⟨5, 6⟩
        (some ⟨.SOLID_T, some "cc", ⟨0, 0⟩, 1, 0, 0⟩)).Save (some PNS.FILE.fresh)).2 =
          .error .DANGLING_POINTER ∧
      ((PNS.LOGGER.new.Log 0 ⟨1, -2⟩ (some ⟨.VIA_T, some "aa", ⟨0, 0⟩, 1, 0, 0⟩)).Save
        (some PNS.FILE.fresh)).2 = .error .DANGLING_POINTER ∧
      ((PNS.LOGGER.new.Log 0 ⟨1, -2⟩ (some ⟨.VIA_T, some "aa", ⟨0, 0⟩, 1, 0, 0⟩)).Save
        (some PNS.FILE.fresh)).2 ≠ .ok { data := "event 0 1 -2 aa\n" } := by
  refine ⟨?_, rfl, rfl, ?_⟩
  · simp only [PNS.LOGGER.Save, PNS.LOGGER.saveLoop_some]
    by_cases h : l.m_events.any PNS.EVENT_ENTRY.hasProvenance = true
    · simp [h]
    · simp [h, PNS.fclose]
  · intro h
    cases h

/-- C19 at the failing input: for the logger holding one entry with provenance and a path
that can be opened, `Save` leaves the event sequence as it was (as it does for every logger
and every outcome of opening the path), but neither the first `Save` nor the second one
right after it writes a text: each runs into the read through the dangling `idString`, so
there is no text for the two calls to agree on. -/
theorem PNS.LOGGER.Save_twice_no_text :
    (∀ (l : PNS.LOGGER) (f : Option PNS.FILE), (l.Save f).1.m_events = l.m_events) ∧
      ((PNS.LOGGER.new.Log 5 ⟨10, 20⟩ (some ⟨.VIA_T, some "uuid", ⟨0, 0⟩, 1, 0, 0⟩)).Save
        (some PNS.FILE.fresh)).2 = .error .DANGLING_POINTER ∧
      (((PNS.LOGGER.new.Log 5 ⟨10, 20⟩ (some ⟨.VIA_T, some "uuid", ⟨0, 0⟩, 1, 0, 0⟩)).Save
        (some PNS.FILE.fresh)).1.Save (some PNS.FILE.fresh)).2 = .error .DANGLING_POINTER ∧
      (¬ ∃ text : PNS.FILE,
        ((PNS.LOGGER.new.Log 5 ⟨10, 20⟩ (some ⟨.VIA_T, some "uuid", ⟨0, 0⟩, 1, 0, 0⟩)).Save
          (some PNS.FILE.fresh)).2 = .ok text) := by
  refine ⟨fun _ _ => rfl, rfl, rfl, ?_⟩
  rintro ⟨text, h⟩
  cases h

/-- C20 at the failing inputs: when the path cannot be opened (null stream), `Save` never
returns normally, for every event sequence: it runs into the fault of passing the null
stream to `fprintf` or, at the latest, to `fclose`. -/
theorem PNS.LOGGER.Save_null_stream (l : PNS.LOGGER) :
    (l.Save none).2 = .error .NULL_STREAM ∧
      (PNS.LOGGER.new.Save none).2 = .error .NULL_STREAM ∧
      ((PNS.LOGGER.new.Log 0 ⟨1, 2⟩ (some ⟨.VIA_T, some "aa", ⟨0, 0⟩, 1, 0, 0⟩)).Save none).2 =
        .error .NULL_STREAM := by
  refine ⟨?_, rfl, rfl⟩
  rcases PNS.LOGGER.saveLoop_none l.m_events with h | h
  · simp [PNS.LOGGER.Save, h]
  · simp [PNS.LOGGER.Save, h, PNS.fclose]

/-! ## Claims on the settings parameters -/

/-- C23 at the failing input: a read-only parameter is left alone by `Load`, whatever the
settings hold, and is overwritten by `SetDefault`: the read-only `PARAM<int>` with default 5
whose target holds 7 has the target 5 after `SetDefault`. -/
theorem PARAM.SetDefault_overwrites_readOnly (aJsonPath : String)
    (aDefault aMin aMax aTarget : Int) (aSettings : JSON_SETTINGS Int) :
    (PARAM.newRange aJsonPath aDefault aMin aMax true).Load aSettings aTarget = aTarget ∧
      (PARAM.new aJsonPath aDefault true 0).Load aSettings aTarget = aTarget ∧
      (PARAM.newRange aJsonPath aDefault aMin aMax true).SetDefault aTarget = aDefault ∧
      (PARAM.new aJsonPath aDefault true 0).SetDefault aTarget = aDefault ∧
      (PARAM.new "x" (5 : Int) true 0).m_readOnly = true ∧
      (PARAM.new "x" (5 : Int) true 0).SetDefault 7 = 5 ∧
      (PARAM.new "x" (5 : Int) true 0).SetDefault 7 ≠ 7 :=
  ⟨rfl, rfl, rfl, rfl, rfl, rfl, by decide⟩

/-- C24 at the failing inputs: `PARAM_LAMBDA::MatchesFile` is true exactly when the file holds
the default at the path, whatever the getter returns.  With default 5 and the getter
returning 7, a file holding 7 (equal to the value in memory) gives false and a file holding
5 (different from the value in memory) gives true. -/
theorem PARAM_LAMBDA.MatchesFile_compares_default (aPath : String) (aDefault : Int)
    (aGetter : Int → Int) (aSetter : Int → Int → Int) (aReadOnly : Bool)
    (aSettings : JSON_SETTINGS Int) (aStorage : Int) :
    ((PARAM_LAMBDA.mk aPath aReadOnly aDefault aGetter aSetter false).MatchesFile aSettings
        aStorage = true ↔ aSettings.Get aPath = some aDefault) ∧
      (PARAM_LAMBDA.mk "x" false (5 : Int) (fun m : Int => m) (fun v _ => v) false).m_getter 7
        = 7 ∧
      (PARAM_LAMBDA.mk "x" false (5 : Int) (fun m : Int => m) (fun v _ => v) false).MatchesFile
        ⟨fun _ => some 7, fun _ => none⟩ 7 = false ∧
      (PARAM_LAMBDA.mk "x" false (5 : Int) (fun m : Int => m) (fun v _ => v) false).MatchesFile
        ⟨fun _ => some 5, fun _ => none⟩ 7 = true := by
  refine ⟨?_, rfl, by decide, by decide⟩
  unfold PARAM_LAMBDA.MatchesFile
  simp only [Bool.false_eq_true, if_false]
  cases h : aSettings.Get aPath with
  | none => simp
  | some v => simp

/-- C27: for a parameter that is not read-only and has the range `[aMin, aMax]` and the default
`aDefault`, after `Load` the target is the value found at the path when that value lies in
the range, and the default when the path is absent or the value lies below `aMin` or above
`aMax`; so the target ends inside the range or equal to the default. -/
theorem PARAM.Load_range {ValueType : Type} [LinearOrder ValueType] (aJsonPath : String)
    (aDefault aMin aMax : ValueType) (aSettings : JSON_SETTINGS ValueType)
    (aTarget : ValueType) :
    (∀ v : ValueType, aSettings.Get aJsonPath = some v → aMin ≤ v → v ≤ aMax →
        (PARAM.newRange aJsonPath aDefault aMin aMax false).Load aSettings aTarget = v) ∧
      (aSettings.Get aJsonPath = none →
        (PARAM.newRange aJsonPath aDefault aMin aMax false).Load aSettings aTarget = aDefault) ∧
      (∀ v : ValueType, aSettings.Get aJsonPath = some v → (v < aMin ∨ aMax < v) →
        (PARAM.newRange aJsonPath aDefault aMin aMax false).Load aSettings aTarget = aDefault) ∧
      ((aMin ≤ (PARAM.newRange aJsonPath aDefault aMin aMax false).Load aSettings aTarget ∧
          (PARAM.newRange aJsonPath aDefault aMin aMax false).Load aSettings aTarget ≤ aMax) ∨
        (PARAM.newRange aJsonPath aDefault aMin aMax false).Load aSettings aTarget =
          aDefault) := by
  have key : ∀ v : ValueType, aSettings.Get aJsonPath = some v →
      (PARAM.newRange aJsonPath aDefault aMin aMax false).Load aSettings aTarget =
        if aMax < v ∨ v < aMin then aDefault else v := by
    intro v hv
    simp [PARAM.Load, PARAM.newRange, hv]
  have knone : aSettings.Get aJsonPath = none →
      (PARAM.newRange aJsonPath aDefault aMin aMax false).Load aSettings aTarget = aDefault := by
    intro hv
    simp [PARAM.Load, PARAM.newRange, hv]
  refine ⟨?_, knone, ?_, ?_⟩
  · intro v hv h1 h2
    rw [key v hv, if_neg]
    rintro (h | h)
    · exact absurd h2 (not_le.2 h)
    · exact absurd h1 (not_le.2 h)
  · intro v hv h
    rw [key v hv, if_pos]
    exact h.symm
  · cases hv : aSettings.Get aJsonPath with
    | none => exact Or.inr (knone hv)
    | some v =>
      rw [key v hv]
      by_cases h : aMax < v ∨ v < aMin
      · rw [if_pos h]
        exact Or.inr rfl
      · rw [if_neg h]
        left
        constructor
        · exact not_lt.1 (fun h' => h (Or.inr h'))
        · exact not_lt.1 (fun h' => h (Or.inl h'))

/-- Witness of C27: range `[0, 10]`, default 5: the value 7 is loaded and the value 11 is
replaced by the default. -/
theorem PARAM.Load_range_witness :
    (PARAM.newRange "x" (5 : Int) 0 10 false).Load ⟨fun _ => some 7, fun _ => none⟩ 3 = 7 ∧
      (PARAM.newRange "x" (5 : Int) 0 10 false).Load ⟨fun _ => some 11, fun _ => none⟩ 3 = 5 :=
  ⟨(PARAM.Load_range "x" (5 : Int) 0 10 ⟨fun _ => some 7, fun _ => none⟩ 3).1 7 rfl
      (by decide) (by decide),
    (PARAM.Load_range "x" (5 : Int) 0 10 ⟨fun _ => some 11, fun _ => none⟩ 3).2.2.1 11 rfl
      (by decide)⟩

/-! ## Further claims on `SHAPE_CIRCLE::Collide` and on the default via -/

/-- The integer square root of an integer lying below the square of a positive bound lies
below the bound. -/
theorem Int_sqrt_lt_of_lt_sq (D m : Int) (hm : 0 < m) (h : D < m * m) : Int.sqrt D < m := by
  rw [Int_sqrt_eq_floor_sqrt, Int.floor_lt]
  exact (real_sqrt_lt_int_iff D m).2 ⟨hm, h⟩

/-- Counterexample to C29: radius 300 (non-negative) at the origin, clearance 71999701
(positive), point probe at (72000000, 12000): `Collide` returns true and reports the actual
distance 71999701, which is not below the clearance. -/
theorem SHAPE_CIRCLE.Collide_actual_lt_clearance_counterexample :
    (0 : Int) ≤ (⟨300, ⟨0, 0⟩⟩ : SHAPE_CIRCLE).m_radius ∧ (0 : Int) < 71999701 ∧
      SHAPE_CIRCLE.Collide SEG.pointSquaredDistance ⟨300, ⟨0, 0⟩⟩
        ⟨⟨72000000, 12000⟩, ⟨72000000, 12000⟩⟩ 71999701 (some 0) = (true, some 71999701) ∧
      ¬ ((71999701 : Int) < 71999701) := by
  have hD : SEG.pointSquaredDistance ⟨⟨72000000, 12000⟩, ⟨72000000, 12000⟩⟩ ⟨0, 0⟩ =
      5184000144000000 := by decide
  refine ⟨by decide, by decide, ?_, by decide⟩
  unfold SHAPE_CIRCLE.Collide
  simp only [hD]
  rw [if_pos (Or.inr (by decide)), cIntSqrt_rounds_up.2]
  rfl

/-- C29 (amended): for a non-negative radius and a positive clearance, when `Collide` returns
true the reported actual distance `a` satisfies `0 ≤ a ≤ clearance` for a squared distance
below 2^53 and `0 ≤ a < clearance` for a squared distance below 2^52. -/
theorem SHAPE_CIRCLE.Collide_actual_le_clearance (sd : SEG → VECTOR2I → Int)
    (self : SHAPE_CIRCLE) (aSeg : SEG) (aClearance a0 a : Int)
    (hr : 0 ≤ self.m_radius) (hc : 0 < aClearance)
    (h : self.Collide sd aSeg aClearance (some a0) = (true, some a)) :
    (sd aSeg self.m_center < 2 ^ 53 → 0 ≤ a ∧ a ≤ aClearance) ∧
      (sd aSeg self.m_center < 2 ^ 52 → 0 ≤ a ∧ a < aClearance) := by
  have h1 : (self.Collide sd aSeg aClearance (some a0)).1 = true := by rw [h]
  have h2 := (SHAPE_CIRCLE.Collide_fst_iff sd self aSeg aClearance (some a0)).1 h1
  have ha : a = max 0 (cIntSqrt (sd aSeg self.m_center) - self.m_radius) := by
    have h3 := SHAPE_CIRCLE.Collide_snd_of_hit sd self aSeg aClearance a0 h1
    rw [h] at h3
    exact Option.some.inj h3
  have hs : Int.sqrt (sd aSeg self.m_center) < aClearance + self.m_radius := by
    rcases h2 with h0 | hlt
    · rw [h0]
      have : Int.sqrt 0 = 0 := by simp [Int.sqrt]
      omega
    · exact Int_sqrt_lt_of_lt_sq _ _ (by omega) hlt
  constructor
  · intro h53
    rw [ha]
    refine ⟨le_max_left _ _, max_le hc.le ?_⟩
    rcases cIntSqrt_cases _ h53 with hcs | ⟨hcs, _⟩ <;> rw [hcs] <;> omega
  · intro h52
    rw [ha, cIntSqrt_eq_Int_sqrt _ h52]
    exact ⟨le_max_left _ _, max_lt hc (by omega)⟩

/-- Witness of the amended C29: radius 300 at the origin, point probe at (400, 0), clearance
300: `Collide` returns true and the reported distance 100 lies in `[0, 300)`. -/
theorem SHAPE_CIRCLE.Collide_actual_le_clearance_witness :
    SHAPE_CIRCLE.Collide SEG.pointSquaredDistance ⟨300, ⟨0, 0⟩⟩ ⟨⟨400, 0⟩, ⟨400, 0⟩⟩ 300
        (some 7) = (true, some 100) ∧
      (0 : Int) ≤ 100 ∧ (100 : Int) < 300 := by
  have hD : SEG.pointSquaredDistance ⟨⟨400, 0⟩, ⟨400, 0⟩⟩ ⟨0, 0⟩ = 160000 := by decide
  have hs : cIntSqrt 160000 = 400 := by
    rw [cIntSqrt_eq_Int_sqrt _ (by norm_num)]
    unfold Int.sqrt
    rw [show (160000 : Int).toNat = 400 * 400 from by decide, Nat.sqrt_eq]
    rfl
  have hcol : SHAPE_CIRCLE.Collide SEG.pointSquaredDistance ⟨300, ⟨0, 0⟩⟩
      ⟨⟨400, 0⟩, ⟨400, 0⟩⟩ 300 (some 7) = (true, some 100) := by
    unfold SHAPE_CIRCLE.Collide
    simp only [hD]
    rw [if_pos (Or.inr (by decide)), hs]
    rfl
  exact ⟨hcol, (SHAPE_CIRCLE.Collide_actual_le_clearance SEG.pointSquaredDistance
    ⟨300, ⟨0, 0⟩⟩ ⟨⟨400, 0⟩, ⟨400, 0⟩⟩ 300 7 100 (by decide) (by decide) hcol).2
    (by rw [show (⟨300, ⟨0, 0⟩⟩ : SHAPE_CIRCLE).m_center = ⟨0, 0⟩ from rfl, hD]; norm_num)⟩

/-- C30 at the failing input: the default-constructed via reports the diameter 2, half of
which is 1, while its primary shape has the radius 0, so the primary shape is not the circle
with centre `Pos()` and radius `Diameter() / 2`; its alternate shape is the circle with
centre `Pos()` and radius `Drill() / 2`. -/
theorem PNS.VIA.newDefault_Shape_inconsistent (base : PNS.ITEM) (aDefaultVector : VECTOR2I) :
    (PNS.VIA.newDefault base aDefaultVector).Diameter = 2 ∧
      Int.tdiv (PNS.VIA.newDefault base aDefaultVector).Diameter 2 = 1 ∧
      (PNS.VIA.newDefault base aDefaultVector).Shape.GetRadius = 0 ∧
      (PNS.VIA.newDefault base aDefaultVector).Shape.GetCenter =
        (PNS.VIA.newDefault base aDefaultVector).Pos ∧
      (PNS.VIA.newDefault base aDefaultVector).Shape ≠
        SHAPE_CIRCLE.new (PNS.VIA.newDefault base aDefaultVector).Pos
          (Int.tdiv (PNS.VIA.newDefault base aDefaultVector).Diameter 2) ∧
      (PNS.VIA.newDefault base aDefaultVector).AlternateShape =
        SHAPE_CIRCLE.new (PNS.VIA.newDefault base aDefaultVector).Pos
          (Int.tdiv (PNS.VIA.newDefault base aDefaultVector).Drill 2) := by
  refine ⟨rfl, rfl, rfl, rfl, ?_, rfl⟩
  intro h
  have h1 := congrArg SHAPE_CIRCLE.m_radius h
  revert h1
  simp [PNS.VIA.newDefault, PNS.VIA.Shape, PNS.VIA.Pos, PNS.VIA.Diameter, SHAPE_CIRCLE.new,
    SHAPE_CIRCLE.newDefault]

/-! ## Claims on `BOARD_CONNECTED_ITEM` -/

/-- Counterexample to C21: an item that is not on a copper layer and has a parent board, whose
`FindNet( 0 )` is the net 0 of the board and not the orphaned net: after `SetNetCode( -1 )`
the net of the item is that net 0 of the board, not the orphaned net. -/
theorem BOARD_CONNECTED_ITEM.SetNetCode_off_copper_counterexample :
    (-1 : Int) < 0 ∧
      ((BOARD_CONNECTED_ITEM.SetNetCode ⟨0, none⟩
        ⟨some ⟨fun c => some ⟨c, some ⟨"Default", 200⟩⟩, ⟨some ⟨"Default", 200⟩, 10⟩⟩,
          .F_SilkS, false, some ⟨0, none⟩⟩ (-1) false).item.m_netinfo =
        some ⟨0, some ⟨"Default", 200⟩⟩) ∧
      ((BOARD_CONNECTED_ITEM.SetNetCode ⟨0, none⟩
        ⟨some ⟨fun c => some ⟨c, some ⟨"Default", 200⟩⟩, ⟨some ⟨"Default", 200⟩, 10⟩⟩,
          .F_SilkS, false, some ⟨0, none⟩⟩ (-1) false).item.m_netinfo ≠
        some ⟨0, none⟩) := by
  refine ⟨by decide, rfl, ?_⟩
  decide

/-- C21 (amended): for an item on a copper layer and a negative net code, and for any item
without a parent board and any net code, `SetNetCode` sets the net to the orphaned net and
returns true, without tripping the assertion; for an item that is not on a copper layer and
has a parent board, every net code is replaced by 0 and the net becomes what `FindNet( 0 )`
of the board returns, the result being true when that is not null. -/
theorem BOARD_CONNECTED_ITEM.SetNetCode_orphaned (OrphanedItem : NETINFO_ITEM)
    (self : BOARD_CONNECTED_ITEM) (aNetCode : Int) (aNoAssert : Bool) :
    (((self.m_onCopperLayer = true ∧ aNetCode < 0) ∨ self.m_board = none) →
        (self.SetNetCode OrphanedItem aNetCode aNoAssert).item.m_netinfo = some OrphanedItem ∧
          (self.SetNetCode OrphanedItem aNetCode aNoAssert).result = true ∧
          (self.SetNetCode OrphanedItem aNetCode aNoAssert).assertFailed = false) ∧
      (∀ b : BOARD, self.m_onCopperLayer = false → self.m_board = some b →
        (self.SetNetCode OrphanedItem aNetCode aNoAssert).item.m_netinfo = b.FindNet 0 ∧
          (self.SetNetCode OrphanedItem aNetCode aNoAssert).result = (b.FindNet 0).isSome) := by
  constructor
  · rintro (⟨h1, h2⟩ | h)
    · have h3 : ¬ aNetCode ≥ 0 := by omega
      cases hb : self.m_board <;>
        simp [BOARD_CONNECTED_ITEM.SetNetCode, h1, h3, hb]
    · simp [BOARD_CONNECTED_ITEM.SetNetCode, h]
  · intro b h1 h2
    simp [BOARD_CONNECTED_ITEM.SetNetCode, h1, h2]

/-- Witness of the amended C21: an item on a copper layer with a parent board, net code -1,
and an item without a parent board that is not on a copper layer, net code 5. -/
theorem BOARD_CONNECTED_ITEM.SetNetCode_orphaned_witness :
    (BOARD_CONNECTED_ITEM.SetNetCode ⟨0, none⟩
        ⟨some ⟨fun c => some ⟨c, some ⟨"Default", 200⟩⟩, ⟨some ⟨"Default", 200⟩, 10⟩⟩,
          .F_Cu, true, some ⟨3, none⟩⟩ (-1) false).item.m_netinfo = some ⟨0, none⟩ ∧
      (BOARD_CONNECTED_ITEM.SetNetCode ⟨0, none⟩ ⟨none, .F_SilkS, false, some ⟨3, none⟩⟩ 5
        false).item.m_netinfo = some ⟨0, none⟩ :=
  ⟨((BOARD_CONNECTED_ITEM.SetNetCode_orphaned ⟨0, none⟩
      ⟨some ⟨fun c => some ⟨c, some ⟨"Default", 200⟩⟩, ⟨some ⟨"Default", 200⟩, 10⟩⟩,
        .F_Cu, true, some ⟨3, none⟩⟩ (-1) false).1 (Or.inl ⟨rfl, by decide⟩)).1,
    ((BOARD_CONNECTED_ITEM.SetNetCode_orphaned ⟨0, none⟩
      ⟨none, .F_SilkS, false, some ⟨3, none⟩⟩ 5 false).1 (Or.inr rfl)).1⟩

/-- Counterexample to C22: an item on a copper layer with a parent board whose `FindNet( 0 )`
is the net 0 of the board and not the orphaned net: `SetNetCode( 0 )` leaves the net 0 of
the board, `SetNetCode( -1 )` leaves the orphaned net. -/
theorem BOARD_CONNECTED_ITEM.SetNetCode_zero_negative_counterexample :
    (-1 : Int) < 0 ∧
      (BOARD_CONNECTED_ITEM.SetNetCode ⟨0, none⟩
        ⟨some ⟨fun c => some ⟨c, some ⟨"Default", 200⟩⟩, ⟨some ⟨"Default", 200⟩, 10⟩⟩,
          .F_Cu, true, some ⟨3, none⟩⟩ 0 false).item.m_netinfo ≠
      (BOARD_CONNECTED_ITEM.SetNetCode ⟨0, none⟩
        ⟨some ⟨fun c => some ⟨c, some ⟨"Default", 200⟩⟩, ⟨some ⟨"Default", 200⟩, 10⟩⟩,
          .F_Cu, true, some ⟨3, none⟩⟩ (-1) false).item.m_netinfo := by
  refine ⟨by decide, ?_⟩
  decide

/-- C22 (amended): for an item without a parent board, or not on a copper layer,
`SetNetCode( 0 )` and `SetNetCode( n )` with `n` negative leave the same net and return the
same result; for an item on a copper layer with a parent board, `SetNetCode( 0 )` leaves
what `FindNet( 0 )` of the board returns and `SetNetCode( n )` leaves the orphaned net. -/
theorem BOARD_CONNECTED_ITEM.SetNetCode_zero_negative (OrphanedItem : NETINFO_ITEM)
    (self : BOARD_CONNECTED_ITEM) (n : Int) (aNoAssert : Bool) (hn : n < 0) :
    ((self.m_board = none ∨ self.m_onCopperLayer = false) →
        (self.SetNetCode OrphanedItem 0 aNoAssert).item.m_netinfo =
            (self.SetNetCode OrphanedItem n aNoAssert).item.m_netinfo ∧
          (self.SetNetCode OrphanedItem 0 aNoAssert).result =
            (self.SetNetCode OrphanedItem n aNoAssert).result) ∧
      (∀ b : BOARD, self.m_onCopperLayer = true → self.m_board = some b →
        (self.SetNetCode OrphanedItem 0 aNoAssert).item.m_netinfo = b.FindNet 0 ∧
          (self.SetNetCode OrphanedItem n aNoAssert).item.m_netinfo = some OrphanedItem) := by
  have h3 : ¬ n ≥ 0 := by omega
  constructor
  · rintro (h | h)
    · simp [BOARD_CONNECTED_ITEM.SetNetCode, h]
    · simp [BOARD_CONNECTED_ITEM.SetNetCode, h]
  · intro b h1 h2
    simp [BOARD_CONNECTED_ITEM.SetNetCode, h1, h2, h3]

/-- Witness of the amended C22: an item that is not on a copper layer, with a parent board,
net codes 0 and -1. -/
theorem BOARD_CONNECTED_ITEM.SetNetCode_zero_negative_witness :
    (BOARD_CONNECTED_ITEM.SetNetCode ⟨0, none⟩
        ⟨some ⟨fun c => some ⟨c, some ⟨"Default", 200⟩⟩, ⟨some ⟨"Default", 200⟩, 10⟩⟩,
          .F_SilkS, false, some ⟨3, none⟩⟩ 0 false).item.m_netinfo =
      (BOARD_CONNECTED_ITEM.SetNetCode ⟨0, none⟩
        ⟨some ⟨fun c => some ⟨c, some ⟨"Default", 200⟩⟩, ⟨some ⟨"Default", 200⟩, 10⟩⟩,
          .F_SilkS, false, some ⟨3, none⟩⟩ (-1) false).item.m_netinfo :=
  ((BOARD_CONNECTED_ITEM.SetNetCode_zero_negative ⟨0, none⟩
    ⟨some ⟨fun c => some ⟨c, some ⟨"Default", 200⟩⟩, ⟨some ⟨"Default", 200⟩, 10⟩⟩,
      .F_SilkS, false, some ⟨3, none⟩⟩ (-1) false (by decide)).1 (Or.inr rfl)).1

/-- C28 at the failing input: this item in net 1 with the net class `A` of clearance 100, the
other connected item in net 2 with the net class `B` of clearance 300, rule clearance 0, no
board edge involved: `GetClearance` returns 100, below the clearance 300 of the net class
of the other item. -/
theorem BOARD_CONNECTED_ITEM.GetClearance_ignores_item_netclass :
    BOARD_CONNECTED_ITEM.GetClearance (fun _ _ _ _ src => (0, src))
        ⟨some ⟨fun c => some ⟨c, none⟩, ⟨some ⟨"Default", 200⟩, 10⟩⟩, .F_Cu, true,
          some ⟨1, some ⟨"A", 100⟩⟩⟩
        (some (.connected
          ⟨some ⟨fun c => some ⟨c, none⟩, ⟨some ⟨"Default", 200⟩, 10⟩⟩, .F_Cu, true,
            some ⟨2, some ⟨"B", 300⟩⟩⟩))
        (some "") =
      some (100, some "'A' netclass clearance") ∧ (100 : Int) < 300 :=
  ⟨rfl, by decide⟩

/-! ## Claims on `PNS::NODE` -/

/-- The iterations of the pushout resolver with `n` iterations left: at most `n` further trial
positions are evaluated; a true result means the last evaluated position is collision-free;
a false result means all `n` further positions were evaluated and each of them collides. -/
theorem PNS.VIA.pushoutLoop_spec (collide : VECTOR2I → Option VECTOR2I) (aForce : VECTOR2I)
    (n : Nat) :
    ∀ (pos totalForce : VECTOR2I) (trials : List VECTOR2I),
      (PNS.VIA.pushoutLoop collide aForce n pos totalForce trials).trials.length ≤
          trials.length + n ∧
        ((PNS.VIA.pushoutLoop collide aForce n pos totalForce trials).result = true →
          ∃ last : VECTOR2I,
            (PNS.VIA.pushoutLoop collide aForce n pos totalForce trials).trials.getLast? =
              some last ∧ collide last = none) ∧
        ((PNS.VIA.pushoutLoop collide aForce n pos totalForce trials).result = false →
          (PNS.VIA.pushoutLoop collide aForce n pos totalForce trials).trials.length =
              trials.length + n ∧
            (PNS.VIA.pushoutLoop collide aForce n pos totalForce trials).aForce = aForce ∧
            ∀ p ∈ (PNS.VIA.pushoutLoop collide aForce n pos totalForce trials).trials,
              p ∈ trials ∨ (collide p).isSome = true) := by
  induction n with
  | zero =>
    intro pos totalForce trials
    simp [PNS.VIA.pushoutLoop]
    intro p hp
    exact Or.inl hp
  | succ k ih =>
    intro pos totalForce trials
    cases hcol : collide pos with
    | none =>
      simp [PNS.VIA.pushoutLoop, hcol]
    | some step =>
      have h := ih (pos + step) (totalForce + step) (trials ++ [pos])
      simp only [PNS.VIA.pushoutLoop, hcol]
      refine ⟨?_, h.2.1, ?_⟩
      · have h1 := h.1
        simp only [List.length_append, List.length_singleton] at h1
        omega
      · intro hf
        obtain ⟨h1, h2, h3⟩ := h.2.2 hf
        refine ⟨?_, h2, ?_⟩
        · simp only [List.length_append, List.length_singleton] at h1
          omega
        · intro p hp
          rcases h3 p hp with hmem | hc
          · rcases List.mem_append.1 hmem with hm | hm
            · exact Or.inl hm
            · right
              have : p = pos := by simpa using hm
              rw [this, hcol]
              rfl
          · exact Or.inr hc

/-- C26: `PushoutForce` evaluates at most `aMaxIterations` trial positions; it returns true
only when the last evaluated position is collision-free; it returns false exactly when the
bound is exhausted, every evaluated position colliding, and then leaves `aForce` as it
was; the call with the defaulted arguments is the call with solids-only true and the
bound 10, so it evaluates at most 10 positions. -/
theorem PNS.VIA.PushoutForce_bounded (collide : Bool → VECTOR2I → VECTOR2I → Option VECTOR2I)
    (self : PNS.VIA) (aDirection aForce : VECTOR2I) (aSolidsOnly : Bool)
    (aMaxIterations : Int) :
    (self.PushoutForce collide aDirection aForce aSolidsOnly aMaxIterations).trials.length ≤
        aMaxIterations.toNat ∧
      ((self.PushoutForce collide aDirection aForce aSolidsOnly aMaxIterations).result = true →
        ∃ last : VECTOR2I,
          (self.PushoutForce collide aDirection aForce aSolidsOnly
            aMaxIterations).trials.getLast? = some last ∧
          collide aSolidsOnly aDirection last = none) ∧
      ((self.PushoutForce collide aDirection aForce aSolidsOnly aMaxIterations).result = false →
        (self.PushoutForce collide aDirection aForce aSolidsOnly
            aMaxIterations).trials.length = aMaxIterations.toNat ∧
          (self.PushoutForce collide aDirection aForce aSolidsOnly aMaxIterations).aForce =
            aForce ∧
          ∀ p ∈ (self.PushoutForce collide aDirection aForce aSolidsOnly
              aMaxIterations).trials,
            (collide aSolidsOnly aDirection p).isSome = true) ∧
      self.PushoutForceDefault collide aDirection aForce =
        self.PushoutForce collide aDirection aForce true 10 ∧
      (self.PushoutForceDefault collide aDirection aForce).trials.length ≤ 10 := by
  have h := PNS.VIA.pushoutLoop_spec (collide aSolidsOnly aDirection) aForce
    aMaxIterations.toNat self.Pos ⟨0, 0⟩ []
  have hd := PNS.VIA.pushoutLoop_spec (collide true aDirection) aForce
    (10 : Int).toNat self.Pos ⟨0, 0⟩ []
  refine ⟨?_, h.2.1, ?_, rfl, ?_⟩
  · simpa [PNS.VIA.PushoutForce] using h.1
  · intro hf
    obtain ⟨h1, h2, h3⟩ := h.2.2 hf
    refine ⟨by simpa [PNS.VIA.PushoutForce] using h1, h2, ?_⟩
    intro p hp
    rcases h3 p hp with hm | hc
    · simp at hm
    · exact hc
  · simpa [PNS.VIA.PushoutForce, PNS.VIA.PushoutForceDefault] using hd.1

/-- Witness of C26: a via at the origin that collides at every position, pushed by (5, 0) per
iteration with the defaulted arguments: the resolver fails after 10 trials; and a via that
is clear once it has reached x = 10: the resolver succeeds at the third trial. -/
theorem PNS.VIA.PushoutForce_bounded_witness :
    ((PNS.VIA.new ⟨.VIA_T, none, ⟨0, 0⟩, -1, 0, -1⟩ ⟨0, 0⟩ ⟨0, 15⟩ 600 250 1
        .THROUGH).PushoutForceDefault (fun _ d _ => some d) ⟨5, 0⟩ ⟨0, 0⟩).result = false ∧
      ((PNS.VIA.new ⟨.VIA_T, none, ⟨0, 0⟩, -1, 0, -1⟩ ⟨0, 0⟩ ⟨0, 15⟩ 600 250 1
        .THROUGH).PushoutForceDefault (fun _ d _ => some d) ⟨5, 0⟩ ⟨0, 0⟩).trials.length
          = 10 ∧
      ((PNS.VIA.new ⟨.VIA_T, none, ⟨0, 0⟩, -1, 0, -1⟩ ⟨0, 0⟩ ⟨0, 15⟩ 600 250 1
        .THROUGH).PushoutForce (fun _ d p => if p.x < 10 then some d else none) ⟨5, 0⟩ ⟨0, 0⟩
          true 10).trials.getLast? = some ⟨10, 0⟩ ∧
      ∃ last : VECTOR2I,
        ((PNS.VIA.new ⟨.VIA_T, none, ⟨0, 0⟩, -1, 0, -1⟩ ⟨0, 0⟩ ⟨0, 15⟩ 600 250 1
          .THROUGH).PushoutForce (fun _ d p => if p.x < 10 then some d else none) ⟨5, 0⟩
            ⟨0, 0⟩ true 10).trials.getLast? = some last ∧
          (fun (_ : Bool) (d p : VECTOR2I) => if p.x < 10 then some d else none) true ⟨5, 0⟩
            last = none :=
  ⟨by decide, by decide, by decide,
    (PNS.VIA.PushoutForce_bounded (fun _ d p => if p.x < 10 then some d else none)
      (PNS.VIA.new ⟨.VIA_T, none, ⟨0, 0⟩, -1, 0, -1⟩ ⟨0, 0⟩ ⟨0, 15⟩ 600 250 1 .THROUGH)
      ⟨5, 0⟩ ⟨0, 0⟩ true 10).2.1 (by decide)⟩
